import Mathlib

/-!
# Verification of the mock Metronome contract-edit engine

This file is a shallow embedding, in Lean 4, of the contract lifecycle and
credit-bridging engine of the mock Metronome billing server
(`src/routes/contracts.ts`, `src/utils.ts`, `src/store.ts`,
`src/routes/balances.ts`), together with theorems settling the frozen
claims about it.

Modelling conventions:

* A JavaScript `Date` is modelled by the structure `DT` holding the UTC
  calendar fields (year, 0-based month, day, hour, minute, second, ms),
  exactly the fields the source manipulates through `Date.UTC` /
  `getUTCFullYear` / `getUTCMonth` / ….  The source compares dates only
  through `getTime()` (`<=`, `>`, `===`); on calendar-canonical field values
  the mixed-radix key `DT.key` is strictly monotone in the epoch value, so
  `DT.le` / `DT.lt` / key equality model those comparisons.  The source also
  round-trips dates through RFC3339 strings (`formatRFC3339` /
  `parseRFC3339`, which are mutually inverse); we therefore store `DT`
  values directly where the source stores strings, and string equality
  becomes structural `DT` equality.
* The several `new Date()` calls inside one request handler are modelled as
  a single instant `now` passed to the handler.
* `nanoid`-based id generation (`generateId`) is modelled by a counter
  threaded through the computation: the n-th generated id with prefix `p`
  is `p ++ "_" ++ toString n`.  Webhook emission and console logging are
  side effects outside the state and are not modelled.
* JavaScript truthiness on optional-string fields (`if (x)`, `x ? a : b`,
  `!x`) is modelled by `optTruthy`: `none` and `some ""` are falsy.
  Nullish coalescing (`??`) is `Option.orElse` (so `some ""` is kept),
  while `||` on strings treats `""` as absent.
* `undefined === undefined` is `true` in JavaScript; comparisons between
  possibly-missing fields are therefore modelled as equality of `Option`
  values, where `none = none` holds.
-/

/-- UTC calendar instant, mirroring the fields the source reads and writes
through `Date.UTC(year, month, day, hour, minute, second, ms)`.  `month` is
0-based as in JavaScript. -/
structure DT where
  year : Int
  month : Int
  day : Int
  hour : Int
  minute : Int
  second : Int
  ms : Int
deriving DecidableEq, Repr

/-- Mixed-radix key; on calendar-canonical fields it is strictly monotone in
the epoch-milliseconds value, so it models `getTime()` comparisons. -/
def DT.key (d : DT) : Int :=
  (((((d.year * 12 + d.month) * 32 + d.day) * 24 + d.hour) * 60 + d.minute) * 60
      + d.second) * 1000 + d.ms

/-- `a.getTime() <= b.getTime()`. -/
def DT.le (a b : DT) : Bool := a.key ≤ b.key

/-- `a.getTime() < b.getTime()`. -/
def DT.lt (a b : DT) : Bool := a.key < b.key

/-- `a.getTime() === b.getTime()`. -/
def DT.keq (a b : DT) : Bool := a.key = b.key

/-- `startOfHour` from `src/utils.ts`: zero out minutes/seconds/millis
(keeping the UTC year/month/day/hour). -/
def startOfHour (d : DT) : DT :=
  { d with minute := 0, second := 0, ms := 0 }

/-- `startOfMonth` from `src/utils.ts`: first instant of the UTC month. -/
def startOfMonth (d : DT) : DT :=
  { d with day := 1, hour := 0, minute := 0, second := 0, ms := 0 }

/-- `addMonths` from `src/utils.ts`:
`newMonth = month + n`, `newYear = year + Math.floor(newMonth / 12)`,
`finalMonth = ((newMonth % 12) + 12) % 12`; day and time-of-day fields are
carried as-is (the source only applies it to month boundaries, where the
`Date.UTC` day-overflow normalisation never triggers). -/
def addMonths (d : DT) (n : Int) : DT :=
  let newMonth := d.month + n
  { d with year := d.year + Int.fdiv newMonth 12, month := Int.emod newMonth 12 }

/-- The larger of two instants in `getTime()` order (ties resolved to the
first argument); used to state the spec's `max(contract.starting_at,
floorToMonth(now))`. -/
def DT.maxD (a b : DT) : DT := if DT.lt a b then b else a

theorem startOfHour_idem (d : DT) : startOfHour (startOfHour d) = startOfHour d := rfl

theorem startOfMonth_startOfHour (d : DT) :
    startOfMonth (startOfHour d) = startOfMonth d := rfl

theorem startOfMonth_idem (d : DT) :
    startOfMonth (startOfMonth d) = startOfMonth d := rfl

theorem startOfHour_startOfMonth (d : DT) :
    startOfHour (startOfMonth d) = startOfMonth d := rfl

theorem addMonths_startOfMonth_fixed (d : DT) (n : Int) :
    startOfMonth (addMonths (startOfMonth d) n) = addMonths (startOfMonth d) n := rfl

theorem startOfHour_addMonths_startOfMonth (d : DT) (n : Int) :
    startOfHour (addMonths (startOfMonth d) n) = addMonths (startOfMonth d) n := rfl

/-! ## Domain data model (`src/types.ts` as used by `src/routes/contracts.ts`) -/

/-- One entry of a subscription's quantity schedule. -/
structure QuantityItem where
  quantity : Int
  starting_at : DT
deriving DecidableEq, Repr

/-- One billing period snapshot (`{starting_at, ending_before}`). -/
structure BillingPeriod where
  starting_at : DT
  ending_before : Option DT
deriving DecidableEq, Repr

/-- `billing_periods.{current, next}` of a subscription. -/
structure BillingPeriods where
  current : BillingPeriod
  next : Option BillingPeriod
deriving DecidableEq, Repr

/-- A subscription on a contract.  `productId` and `billingFrequency` flatten
`subscription_rate.product.id` and `subscription_rate.billing_frequency`;
`tier_id` flattens `custom_fields.tier_id` (the only custom field the engine
reads). -/
structure Subscription where
  id : String
  starting_at : DT
  ending_before : Option DT := none
  productId : String
  billingFrequency : String
  quantity_schedule : List QuantityItem := []
  tier_id : Option String := none
  billing_periods : Option BillingPeriods := none
deriving DecidableEq, Repr

/-- One `{starting_at, ending_before, amount}` access-schedule item. -/
structure ScheduleItem where
  starting_at : DT
  ending_before : DT
  amount : Int
deriving DecidableEq, Repr

/-- An access schedule (`credit_type_id` plus schedule items). -/
structure AccessSchedule where
  credit_type_id : String
  schedule_items : List ScheduleItem := []
deriving DecidableEq, Repr

/-- A one-time credit.  `subscription_id` flattens
`subscription_config?.subscription_id` and `tier_id` flattens
`custom_fields.tier_id`. -/
structure Credit where
  id : String
  productId : String
  access_schedule : Option AccessSchedule := none
  archived_at : Option DT := none
  tier_id : Option String := none
  subscription_id : Option String := none
deriving DecidableEq, Repr

/-- A recurring credit.  `subscription_id` flattens
`subscription_config?.subscription_id`. -/
structure RecurringCredit where
  id : String
  productId : String
  starting_at : DT
  ending_before : Option DT := none
  subscription_id : Option String := none
deriving DecidableEq, Repr

/-- A product override. -/
structure ProductOverride where
  id : String
  productId : String
  starting_at : DT
  entitled : Bool
deriving DecidableEq, Repr

/-- `prepaid_balance_threshold_configuration`.  `commit_product_id` flattens
`commit?.product_id` (the only commit field the engine reads). -/
structure ThresholdConfig where
  is_enabled : Bool := false
  threshold_amount : Option Int := none
  recharge_to_amount : Option Int := none
  commit_product_id : Option String := none
deriving DecidableEq, Repr

/-- A V2 contract aggregate. -/
structure Contract where
  id : String
  customer_id : String
  starting_at : DT
  uniqueness_key : Option String := none
  subscriptions : List Subscription := []
  credits : List Credit := []
  recurring_credits : List RecurringCredit := []
  overrides : List ProductOverride := []
  prepaid_config : Option ThresholdConfig := none
deriving DecidableEq, Repr

/-! ## Edit-request shape (fields consumed by `handleContractEdit`) -/

/-- One `update_subscriptions` entry. -/
structure UpdateSubscriptionReq where
  subscription_id : String
  ending_before : Option DT := none
deriving DecidableEq, Repr

/-- One `update_recurring_credits` entry. -/
structure UpdateRecurringReq where
  recurring_credit_id : String
  ending_before : Option DT := none
deriving DecidableEq, Repr

/-- One `archive_credits` entry. -/
structure ArchiveCreditReq where
  id : String
deriving DecidableEq, Repr

/-- One `add_subscriptions` entry; `tier_id` flattens
`custom_fields.tier_id`, `product_id`/`billing_frequency` flatten
`subscription_rate`. -/
structure AddSubscriptionReq where
  temporary_id : Option String := none
  starting_at : DT
  product_id : String
  billing_frequency : String
  initial_quantity : Option Int := none
  tier_id : Option String := none
deriving DecidableEq, Repr

/-- One `add_recurring_credits` entry; `subscription_id` flattens
`subscription_config?.subscription_id` (absent config or absent id both
become `none`, matching `?? null`); `access_unit_price` and
`access_credit_type_id` flatten `access_amount`. -/
structure AddRecurringReq where
  product_id : String
  starting_at : DT
  subscription_id : Option String := none
  access_unit_price : Option Int := none
  access_credit_type_id : Option String := none
deriving DecidableEq, Repr

/-- One `add_credits` entry; `subscription_id` flattens
`subscription_config?.subscription_id` and `tier_id` flattens
`custom_fields.tier_id`. -/
structure AddCreditReq where
  product_id : String
  access_schedule : Option AccessSchedule := none
  subscription_id : Option String := none
  tier_id : Option String := none
deriving DecidableEq, Repr

/-- One `add_overrides` entry. -/
structure AddOverrideReq where
  product_id : String
  starting_at : DT
  entitled : Bool
deriving DecidableEq, Repr

/-- `update_prepaid_balance_threshold_configuration` (patched field by
field via `Object.assign`): `some` fields overwrite, `none` fields are
left alone.  `commit_present`/`commit_product_id` model an explicit
`commit` value in the patch. -/
structure ThresholdPatch where
  is_enabled : Option Bool := none
  threshold_amount : Option Int := none
  recharge_to_amount : Option Int := none
  commit_present : Bool := false
  commit_product_id : Option String := none
  mock_payment_status : Option String := none
deriving DecidableEq, Repr

/-- `add_prepaid_balance_threshold_configuration` (wholesale replace). -/
structure AddThresholdReq where
  is_enabled : Bool := false
  threshold_amount : Option Int := none
  recharge_to_amount : Option Int := none
  commit_present : Bool := false
  commit_product_id : Option String := none
  mock_payment_status : Option String := none
deriving DecidableEq, Repr

/-- The fields of a contract-edit request consumed by `handleContractEdit`.
`contract_id` models `req.params.contract_id || req.body.contract_id`. -/
structure EditRequest where
  contract_id : Option String := none
  customer_id : Option String := none
  uniqueness_key : Option String := none
  update_subscriptions : List UpdateSubscriptionReq := []
  update_recurring_credits : List UpdateRecurringReq := []
  archive_credits : List ArchiveCreditReq := []
  add_subscriptions : List AddSubscriptionReq := []
  add_recurring_credits : List AddRecurringReq := []
  add_credits : List AddCreditReq := []
  add_overrides : List AddOverrideReq := []
  update_prepaid : Option ThresholdPatch := none
  add_prepaid : Option AddThresholdReq := none
deriving DecidableEq, Repr

/-- The slice of `MetronomeStore` the edit handler touches: V2 contracts,
the uniqueness-key set, and per-(customer, product) balances. -/
structure Store where
  contractsV2 : List (String × Contract) := []
  uniquenessKeys : List String := []
  balances : List ((String × String) × Int) := []
deriving DecidableEq, Repr

/-! ## Small helpers -/

/-- JavaScript truthiness of an optional string field: `undefined`, `null`
and `""` are falsy. -/
def optTruthy : Option String → Bool
  | none => false
  | some s => !(s == "")

/-- Replace the first element satisfying `p` by its image under `f`
(models finding an object in an array and mutating it in place). -/
def updateFirst (p : α → Bool) (f : α → α) : List α → List α
  | [] => []
  | x :: xs => if p x then f x :: xs else x :: updateFirst p f xs

/-- `generateId(prefix)` determinised by a counter. -/
def generateId (pre : String) (ctr : Nat) : String :=
  pre ++ "_" ++ toString ctr

theorem updateFirst_length (p : α → Bool) (f : α → α) (l : List α) :
    (updateFirst p f l).length = l.length := by
  induction l with
  | nil => rfl
  | cons x xs ih =>
    simp only [updateFirst]
    by_cases h : p x = true
    · simp [h]
    · simp [h, ih]

theorem find?_eq_some_mem_updateFirst (p : α → Bool) (f : α → α) (l : List α)
    (c : α) (h : l.find? p = some c) : f c ∈ updateFirst p f l := by
  induction l with
  | nil => simp [List.find?] at h
  | cons x xs ih =>
    simp only [updateFirst]
    rcases hp : p x with _ | _
    · rw [List.find?_cons_of_neg _ (by simp [hp])] at h
      simp only [hp, Bool.false_eq_true, if_false, List.mem_cons]
      exact Or.inr (ih h)
    · rw [List.find?_cons_of_pos _ hp] at h
      cases h
      simp [hp]

/-! ## Edit-processor steps (`handleContractEdit`, `src/routes/contracts.ts`) -/

/-- One `update_subscriptions` entry (source lines 256-278): find the first
subscription with the given id; set `ending_before` when supplied; then, if
the current billing period has an end strictly in the future, re-floor that
end to an hour-aligned month boundary. -/
def applyOneUpdateSubscription (now : DT) (u : UpdateSubscriptionReq)
    (subs : List Subscription) : List Subscription :=
  updateFirst (fun s => s.id == u.subscription_id)
    (fun s =>
      let s1 := match u.ending_before with
        | some e => { s with ending_before := some e }
        | none => s
      match s1.billing_periods with
      | none => s1
      | some bp =>
        match bp.current.ending_before with
        | none => s1
        | some ce =>
          if DT.lt now ce then
            { s1 with billing_periods := some { bp with
                current := { bp.current with
                  ending_before := some (startOfHour (startOfMonth ce)) } } }
          else s1)
    subs

/-- One `update_recurring_credits` entry (source lines 281-288): set
`ending_before` on the first matching recurring credit when supplied. -/
def applyOneUpdateRecurring (u : UpdateRecurringReq)
    (rcs : List RecurringCredit) : List RecurringCredit :=
  match u.ending_before with
  | none => rcs
  | some e =>
    updateFirst (fun r => r.id == u.recurring_credit_id)
      (fun r => { r with ending_before := some e }) rcs

/-- One `archive_credits` entry (source lines 291-298): stamp
`archived_at = now` on the first matching credit. -/
def applyOneArchive (now : DT) (a : ArchiveCreditReq) (cs : List Credit) : List Credit :=
  updateFirst (fun c => c.id == a.id) (fun c => { c with archived_at := some now }) cs

/-- Build the subscription stored by one `add_subscriptions` entry
(source lines 305-351), returning it together with the advanced id
counter.  `id` is `temporary_id || generateId("sub")` and the quantity is
`initial_quantity || 1` (JavaScript `||`: `0` and `""` count as absent). -/
def buildSubscription (e : AddSubscriptionReq) (ctr : Nat) : Subscription × Nat :=
  let isMonthly := e.billing_frequency == "MONTHLY"
  let periodStartMonth := startOfMonth e.starting_at
  let periodStart := startOfHour periodStartMonth
  let periodEndMonth :=
    if isMonthly then addMonths periodStartMonth 1 else addMonths periodStartMonth 12
  let periodEnd := startOfHour periodEndMonth
  let nextPeriodStartMonth := periodEndMonth
  let nextPeriodEndMonth :=
    if isMonthly then addMonths nextPeriodStartMonth 1 else addMonths nextPeriodStartMonth 12
  let nextPeriodStart := periodEnd
  let nextPeriodEnd := startOfHour nextPeriodEndMonth
  let idc : String × Nat :=
    match e.temporary_id with
    | some t => if t == "" then (generateId "sub" ctr, ctr + 1) else (t, ctr)
    | none => (generateId "sub" ctr, ctr + 1)
  let qty : Int :=
    match e.initial_quantity with
    | some q => if q == 0 then 1 else q
    | none => 1
  (⟨idc.1, e.starting_at, none, e.product_id, e.billing_frequency,
    [⟨qty, e.starting_at⟩], e.tier_id,
    some ⟨⟨periodStart, some periodEnd⟩, some ⟨nextPeriodStart, some nextPeriodEnd⟩⟩⟩,
   idc.2)

/-- All `add_subscriptions` entries, appended in order. -/
def applyAddSubscriptions (entries : List AddSubscriptionReq)
    (subs : List Subscription) (ctr : Nat) : List Subscription × Nat :=
  entries.foldl
    (fun acc e =>
      let (s, ctr2) := buildSubscription e acc.2
      (acc.1 ++ [s], ctr2))
    (subs, ctr)

/-- `isActiveRecurring` (source lines 371-395): the candidate recurring
credit matches the product, its re-normalised (hour-floored) start equals
`normalizedStart`, its subscription binding equals `subId` exactly (both
absent, or both the same id), and if it has an `ending_before`, its
hour-floored value is strictly after `ref` (the closure's `rcStart`). -/
def isActiveRecurring (ref : DT) (r : RecurringCredit) (productId : String)
    (normalizedStart : DT) (subId : Option String) : Bool :=
  r.productId == productId &&
  startOfHour r.starting_at == normalizedStart &&
  r.subscription_id == subId &&
  (match r.ending_before with
   | none => true
   | some e => !(DT.le (startOfHour e) ref))

/-- A subscription that is currently active:
`starting_at <= now && (!ending_before || ending_before > now)`. -/
def subActiveAt (now : DT) (s : Subscription) : Bool :=
  DT.le s.starting_at now &&
  (match s.ending_before with
   | none => true
   | some e => DT.lt now e)

/-- The candidate subscription the bridging resolver settles on.  `id` is
`none` when the candidate is an `add_subscriptions` request entry (such an
entry has no `id` property, so `matchingSub.id` is `undefined` in the
source). -/
structure MatchCand where
  id : Option String
  tier_id : Option String
deriving DecidableEq, Repr

/-- An existing subscription as a bridging candidate. -/
def subToCand (s : Subscription) : MatchCand := ⟨some s.id, s.tier_id⟩

/-- An `add_subscriptions` entry as a bridging candidate. -/
def addToCand (a : AddSubscriptionReq) : MatchCand := ⟨none, a.tier_id⟩

/-- `activeSubsWithTier.find(sub => sub.ending_before) || activeSubsWithTier[0]`:
prefer a subscription that already has an end date, else the first. -/
def preferEnded (l : List Subscription) : Option Subscription :=
  match l with
  | [] => none
  | h :: _ => some ((l.find? (fun s => s.ending_before.isSome)).getD h)

/-- The five-strategy matching-subscription resolution of the bridging
resolver (source lines 448-580), evaluated in order with first hit
winning: (a) the target subscription itself if currently active (or the
added entry with that `temporary_id` if already started); (b) if the added
target carries a `tier_id`, an active same-tier subscription, preferring
one already carrying an end date; (c) if (a) resolved to the literal
target but a same-tier alternative exists, re-prefer the alternative;
(d) an active subscription among those named by `update_subscriptions`;
(e) an active subscription sharing the added target's product. -/
def resolveMatchingSub (now : DT) (subs : List Subscription)
    (addSubs : List AddSubscriptionReq) (endingSubs : List Subscription)
    (t : String) : Option MatchCand :=
  let newSub := addSubs.find? (fun a => a.temporary_id == some t)
  let newSubTierId : Option String := newSub.bind (fun a => a.tier_id)
  let m0 : Option MatchCand :=
    match subs.find? (fun s => s.id == t && subActiveAt now s) with
    | some s => some (subToCand s)
    | none =>
      match addSubs.find? (fun a => a.temporary_id == some t && DT.le a.starting_at now) with
      | some a => some (addToCand a)
      | none => none
  let m1 : Option MatchCand :=
    match m0 with
    | some m => some m
    | none =>
      if optTruthy newSubTierId then
        match preferEnded (subs.filter (fun s => s.tier_id == newSubTierId && subActiveAt now s)) with
        | some s => some (subToCand s)
        | none => none
      else none
  let m2 : Option MatchCand :=
    match m1 with
    | none => none
    | some m =>
      if m.id == some t && optTruthy newSubTierId then
        match preferEnded (subs.filter (fun s => s.tier_id == newSubTierId && subActiveAt now s)) with
        | some p => if p.id == t then some m else some (subToCand p)
        | none => some m
      else some m
  let m3 : Option MatchCand :=
    match m2 with
    | some m => some m
    | none =>
      match endingSubs.find? (subActiveAt now) with
      | some s => some (subToCand s)
      | none => none
  match m3 with
  | some m => some m
  | none =>
    match newSub with
    | none => none
    | some a =>
      if a.product_id == "" then none
      else
        match subs.find? (fun s => s.productId == a.product_id && subActiveAt now s) with
        | some s => some (subToCand s)
        | none => none

/-- `currentPeriodStart` of a bridging run (source lines 627-629):
`startOfHour(contractStart > startOfMonth(now) ? contractStart : startOfMonth(now))`. -/
def bridgePeriodStart (now contractStart : DT) : DT :=
  startOfHour
    (if DT.lt (startOfMonth now) contractStart then contractStart else startOfMonth now)

/-- `currentPeriodEnd` of a bridging run (source line 630):
`startOfHour(startOfMonth(rcStart))`. -/
def bridgePeriodEnd (rcStart : DT) : DT := startOfHour (startOfMonth rcStart)

/-- Shared parameters of one bridge-credit upsert pair (source lines
712-903): the product context being bridged, the current-period bounds,
the resolved matching subscription's id, the current/next tier metadata,
and the target subscription id of the triggering recurring credit. -/
structure BridgeParams where
  productId : String
  creditAmount : Int
  creditTypeId : String
  cps : DT
  cpe : DT
  activeSubId : Option String
  currentTierId : Option String
  nextTierId : Option String
  targetSubId : String
deriving DecidableEq, Repr

/-- `applyCurrentMetadata` (source lines 715-727): tag with the current
tier when truthy; bind to the matching subscription's id when truthy, else
to the target subscription id when truthy. -/
def applyCurrentMetadata (P : BridgeParams) (c : Credit) : Credit :=
  let c1 := if optTruthy P.currentTierId then { c with tier_id := P.currentTierId } else c
  if optTruthy P.activeSubId then { c1 with subscription_id := P.activeSubId }
  else if P.targetSubId == "" then c1
  else { c1 with subscription_id := some P.targetSubId }

/-- `applyNextMetadata` (source lines 729-739): tag with the next tier when
truthy; bind to the target subscription id when truthy. -/
def applyNextMetadata (P : BridgeParams) (c : Credit) : Credit :=
  let c1 := if optTruthy P.nextTierId then { c with tier_id := P.nextTierId } else c
  if P.targetSubId == "" then c1
  else { c1 with subscription_id := some P.targetSubId }

/-- The reuse predicate of the current-period upsert (source lines
815-828): unarchived, same product, a first schedule item whose period
equals `[cps, cpe)` by instant, bound to the matching subscription or
carrying the current tier. -/
def bridgeCurrentMatch (P : BridgeParams) (c : Credit) : Bool :=
  c.archived_at.isNone &&
  c.productId == P.productId &&
  (match c.access_schedule.bind (fun a => a.schedule_items.head?) with
   | none => false
   | some it =>
     DT.keq it.starting_at P.cps && DT.keq it.ending_before P.cpe &&
     (c.subscription_id == P.activeSubId || c.tier_id == P.currentTierId))

/-- `nextPeriodStart` of a bridge pair: `startOfHour(startOfMonth(currentPeriodEnd))`. -/
def bridgeNextStart (P : BridgeParams) : DT := startOfHour (startOfMonth P.cpe)

/-- `nextPeriodEnd` of a bridge pair:
`startOfHour(startOfMonth(addMonths(nextPeriodStart, 1)))`. -/
def bridgeNextEnd (P : BridgeParams) : DT :=
  startOfHour (startOfMonth (addMonths (bridgeNextStart P) 1))

/-- The reuse predicate of the next-period upsert (source lines 861-874). -/
def bridgeNextMatch (P : BridgeParams) (c : Credit) : Bool :=
  c.archived_at.isNone &&
  c.productId == P.productId &&
  (match c.access_schedule.bind (fun a => a.schedule_items.head?) with
   | none => false
   | some it =>
     DT.keq it.starting_at (bridgeNextStart P) && DT.keq it.ending_before (bridgeNextEnd P) &&
     (c.subscription_id == some P.targetSubId || c.tier_id == P.nextTierId))

/-- Current-period bridge upsert (source lines 815-857): reuse the first
matching unarchived credit, updating its metadata in place, else append a
freshly built credit carrying the current-period schedule. -/
def upsertCurrentCredit (P : BridgeParams) (cs : List Credit) (ctr : Nat) :
    List Credit × Nat :=
  match cs.find? (bridgeCurrentMatch P) with
  | some _ => (updateFirst (bridgeCurrentMatch P) (applyCurrentMetadata P) cs, ctr)
  | none =>
    let c : Credit :=
      { id := generateId "credit" ctr, productId := P.productId,
        access_schedule := some ⟨P.creditTypeId, [⟨P.cps, P.cpe, P.creditAmount⟩]⟩,
        archived_at := none, tier_id := none, subscription_id := none }
    (cs ++ [applyCurrentMetadata P c], ctr + 1)

/-- Next-period bridge upsert (source lines 859-903). -/
def upsertNextCredit (P : BridgeParams) (cs : List Credit) (ctr : Nat) :
    List Credit × Nat :=
  match cs.find? (bridgeNextMatch P) with
  | some _ => (updateFirst (bridgeNextMatch P) (applyNextMetadata P) cs, ctr)
  | none =>
    let c : Credit :=
      { id := generateId "credit" ctr, productId := P.productId,
        access_schedule := some ⟨P.creditTypeId, [⟨bridgeNextStart P, bridgeNextEnd P, P.creditAmount⟩]⟩,
        archived_at := none, tier_id := none, subscription_id := none }
    (cs ++ [applyNextMetadata P c], ctr + 1)

/-- The upsert pair run for one product context. -/
def upsertBridgeCredits (P : BridgeParams) (cs : List Credit) (ctr : Nat) :
    List Credit × Nat :=
  let r1 := upsertCurrentCredit P cs ctr
  upsertNextCredit P r1.1 r1.2

/-- One product context to bridge (source lines 664-710). -/
structure ProductContext where
  productId : String
  creditAmount : Int
  creditTypeId : String
  hasMatchingAddCredit : Bool
deriving DecidableEq, Repr

/-- Append a context unless its product id is already present. -/
def pushContext (ctxs : List ProductContext) (c : ProductContext) : List ProductContext :=
  if ctxs.any (fun x => x.productId == c.productId) then ctxs else ctxs ++ [c]

/-- Build the product contexts for one bridging run (source lines
671-710): the triggering recurring credit's product first, then each
`add_credits` entry carrying a schedule item, then each existing credit
matching the active subscription or its tier — deduplicated by product id,
amounts and credit-type ids sourced from the originating record. -/
def buildProductContexts (e : AddRecurringReq) (hasAdd : Bool)
    (relevantAddCredits : List AddCreditReq) (existingForMatching : List Credit) :
    List ProductContext :=
  let base : ProductContext :=
    { productId := e.product_id,
      creditAmount := e.access_unit_price.getD 0,
      creditTypeId := e.access_credit_type_id.getD "",
      hasMatchingAddCredit := hasAdd }
  let step1 := relevantAddCredits.foldl
    (fun acc ac =>
      match ac.access_schedule with
      | none => acc
      | some a =>
        match a.schedule_items.head? with
        | none => acc
        | some it =>
          pushContext acc ⟨ac.product_id, it.amount, a.credit_type_id, true⟩)
    [base]
  existingForMatching.foldl
    (fun acc c =>
      match c.access_schedule with
      | none => acc
      | some a =>
        match a.schedule_items.head? with
        | none => acc
        | some it =>
          pushContext acc ⟨c.productId, it.amount, a.credit_type_id, true⟩)
    step1

/-- Ambient data of the `add_recurring_credits` loop (source lines
356-361): the request instant, the `add_subscriptions` and `add_credits`
lists, the subscription ids named by `update_subscriptions`
(`endingSubIds`), and the contract subscriptions among them
(`endingSubs`, snapshotted before the loop). -/
structure REnv where
  now : DT
  addSubs : List AddSubscriptionReq
  addCredits : List AddCreditReq
  endingSubIds : List String
  endingSubs : List Subscription
deriving DecidableEq, Repr

/-- Mutable state threaded through the `add_recurring_credits` loop: the
contract, the `addedRecurringCredits` accumulator, and the id counter. -/
structure RState where
  c : Contract
  added : List RecurringCredit
  ctr : Nat
deriving DecidableEq, Repr

/-- Bridge one product context (source lines 741-904): skip when an active
recurring credit already covers the product and a matching `add_credits`
entry is present; else ensure the recurring-credit record exists (create
if absent), then run the current/next upsert pair.  (The source re-checks
`matchingSub && isUncancelScenario` inside the loop; both hold invariantly
at this point, so the re-check is omitted.) -/
def bridgeContextStep (rcStart : DT) (t : String) (mkP : ProductContext → BridgeParams)
    (st : RState) (ctx : ProductContext) : RState :=
  let activeRecurring := st.c.recurring_credits.find?
    (fun r => isActiveRecurring rcStart r ctx.productId (startOfHour rcStart) (some t))
  if activeRecurring.isSome && ctx.hasMatchingAddCredit then st
  else
    let st1 :=
      if activeRecurring.isSome then st
      else
        let r : RecurringCredit :=
          { id := generateId "rc" st.ctr, productId := ctx.productId,
            starting_at := startOfHour rcStart, ending_before := none,
            subscription_id := if t == "" then none else some t }
        { c := { st.c with recurring_credits := st.c.recurring_credits ++ [r] },
          added := st.added ++ [r], ctr := st.ctr + 1 }
    let r2 := upsertBridgeCredits (mkP ctx) st1.c.credits st1.ctr
    { st1 with c := { st1.c with credits := r2.1 }, ctr := r2.2 }

/-- The whole bridging attempt for one `add_recurring_credits` entry
(source lines 420-905), starting at the
`if (rcStart <= now || !targetSubId) continue` guard. -/
def bridgeForEntry (env : REnv) (st : RState) (e : AddRecurringReq) : RState :=
  let rcStart := startOfHour e.starting_at
  match e.subscription_id with
  | none => st
  | some t =>
    if DT.le rcStart env.now || t == "" then st
    else
      let targetSubTier : Option String :=
        match st.c.subscriptions.find? (fun s => s.id == t) with
        | some s => s.tier_id
        | none =>
          match env.addSubs.find? (fun a => a.temporary_id == some t) with
          | some a => a.tier_id
          | none => none
      let hasMatchingAddCredit := env.addCredits.any (fun ac => ac.product_id == e.product_id)
      let newSub := env.addSubs.find? (fun a => a.temporary_id == some t)
      let newSubTierId := newSub.bind (fun a => a.tier_id)
      match resolveMatchingSub env.now st.c.subscriptions env.addSubs env.endingSubs t with
      | none => st
      | some m =>
        let isUncancel := DT.lt env.now rcStart &&
          (env.endingSubIds.contains t || !(m.id == some t))
        if !isUncancel then st
        else
          let cps := bridgePeriodStart env.now st.c.starting_at
          let cpe := bridgePeriodEnd rcStart
          if DT.le cpe cps then st
          else
            let relevantAddCredits := env.addCredits.filter
              (fun ac => match ac.access_schedule with
                | some a => !a.schedule_items.isEmpty
                | none => false)
            let existingForMatching := st.c.credits.filter
              (fun c => c.subscription_id == m.id || c.tier_id == m.tier_id)
            let ctxs := buildProductContexts e hasMatchingAddCredit
              relevantAddCredits existingForMatching
            let currentTierId :=
              (m.tier_id.orElse (fun _ => targetSubTier)).orElse (fun _ => newSubTierId)
            let nextTierId :=
              (targetSubTier.orElse (fun _ => newSubTierId)).orElse (fun _ => currentTierId)
            let mkP := fun (ctx : ProductContext) =>
              ({ productId := ctx.productId, creditAmount := ctx.creditAmount,
                 creditTypeId := ctx.creditTypeId, cps := cps, cpe := cpe,
                 activeSubId := m.id, currentTierId := currentTierId,
                 nextTierId := nextTierId, targetSubId := t } : BridgeParams)
            ctxs.foldl (bridgeContextStep rcStart t mkP) st

/-- The duplicate-suppressing append of one `add_recurring_credits` entry
(source lines 366-418): if no active recurring credit matches
`(product, normalized start, target binding)` at the entry's own start,
append a new record (binding stored only when the target id is truthy). -/
def dedupAddRecurring (st : RState) (e : AddRecurringReq) : RState :=
  let rcStart := startOfHour e.starting_at
  match st.c.recurring_credits.find?
      (fun r => isActiveRecurring rcStart r e.product_id rcStart e.subscription_id) with
  | some _ => st
  | none =>
    let r : RecurringCredit :=
      { id := generateId "rc" st.ctr, productId := e.product_id,
        starting_at := rcStart, ending_before := none,
        subscription_id := if optTruthy e.subscription_id then e.subscription_id else none }
    { c := { st.c with recurring_credits := st.c.recurring_credits ++ [r] },
      added := st.added ++ [r], ctr := st.ctr + 1 }

/-- One `add_recurring_credits` entry: duplicate-suppressed append, then
the bridging attempt. -/
def processRecurringEntry (env : REnv) (st : RState) (e : AddRecurringReq) : RState :=
  bridgeForEntry env (dedupAddRecurring st e) e

/-- The whole `add_recurring_credits` step (source lines 355-906),
including the computation of `endingSubIds` and `endingSubs`.  Returns the
mutated contract, the `addedRecurringCredits` list, and the id counter. -/
def processAddRecurringCredits (now : DT) (req : EditRequest) (c : Contract)
    (ctr : Nat) : Contract × List RecurringCredit × Nat :=
  let endingSubIds := req.update_subscriptions.map (fun u => u.subscription_id)
  let endingSubs := c.subscriptions.filter (fun s => endingSubIds.contains s.id)
  let env : REnv := ⟨now, req.add_subscriptions, req.add_credits, endingSubIds, endingSubs⟩
  let st := req.add_recurring_credits.foldl (processRecurringEntry env) ⟨c, [], ctr⟩
  (st.c, st.added, st.ctr)

/-- The plain credit appended for one schedule item of an `add_credits`
entry (source lines 917-934). -/
def buildPlainCredit (e : AddCreditReq) (ctid : String) (it : ScheduleItem)
    (ctr : Nat) : Credit :=
  { id := generateId "credit" ctr, productId := e.product_id,
    access_schedule := some ⟨ctid, [it]⟩, archived_at := none,
    tier_id := e.tier_id, subscription_id := e.subscription_id }

/-- The recurring-credit match that triggers the automatic next-period
credit (source lines 941-953): same product, hour-floored start equal by
instant to the hour-floored `ending_before`, and compatible binding
(either side unbound — absent or empty — or both the same id).  The
candidate's own `ending_before` is not examined. -/
def autoNextMatch (e : AddCreditReq) (it : ScheduleItem) (r : RecurringCredit) : Bool :=
  r.productId == e.product_id &&
  DT.keq (startOfHour r.starting_at) (startOfHour it.ending_before) &&
  (!(optTruthy e.subscription_id) || !(optTruthy r.subscription_id) ||
    r.subscription_id == e.subscription_id)

/-- Binding and tier of the automatic next-period credit (source lines
960-973): when the matched recurring credit carries a truthy subscription
id, take that id; look the subscription up among the contract's
subscriptions then among the `add_subscriptions` entries, and take its
`tier_id` when truthy; otherwise keep the `add_credits` entry's own
binding and custom tier. -/
def autoNextBinding (subs : List Subscription) (addSubs : List AddSubscriptionReq)
    (e : AddCreditReq) (mrc : RecurringCredit) : Option String × Option String :=
  if optTruthy mrc.subscription_id then
    let nsid := mrc.subscription_id
    let tierFromTarget : Option String :=
      match subs.find? (fun s => some s.id == nsid) with
      | some s => s.tier_id
      | none =>
        match addSubs.find? (fun a => a.temporary_id == nsid) with
        | some a => a.tier_id
        | none => none
    (nsid, if optTruthy tierFromTarget then tierFromTarget else e.tier_id)
  else (e.subscription_id, e.tier_id)

/-- Process one schedule item of an `add_credits` entry (source lines
916-999): append the plain credit; then, if some recurring credit (newly
added ones first, then all on the contract) matches via `autoNextMatch`,
append exactly one next-period credit covering
`[startOfHour(startOfMonth(ending_before)), +1 month)` with the same
amount, bound and tagged via `autoNextBinding`. -/
def processScheduleItem (allRecurring : List RecurringCredit)
    (subs : List Subscription) (addSubs : List AddSubscriptionReq)
    (e : AddCreditReq) (ctid : String) (acc : List Credit × Nat)
    (it : ScheduleItem) : List Credit × Nat :=
  let cs1 := acc.1 ++ [buildPlainCredit e ctid it acc.2]
  let ctr1 := acc.2 + 1
  match allRecurring.find? (autoNextMatch e it) with
  | none => (cs1, ctr1)
  | some mrc =>
    let nps := startOfHour (startOfMonth it.ending_before)
    let npe := startOfHour (startOfMonth (addMonths nps 1))
    let withBinding := autoNextBinding subs addSubs e mrc
    let nextCredit : Credit :=
      { id := generateId "credit" ctr1, productId := e.product_id,
        access_schedule := some ⟨ctid, [⟨nps, npe, it.amount⟩]⟩,
        archived_at := none, tier_id := withBinding.2,
        subscription_id := if optTruthy withBinding.1 then withBinding.1 else none }
    (cs1 ++ [nextCredit], ctr1 + 1)

/-- One `add_credits` entry (source lines 913-1018): one credit per
schedule item (plus possible automatic next-period credits), or the
fallback single credit when no schedule-item list is present. -/
def processAddCreditEntry (allRecurring : List RecurringCredit)
    (subs : List Subscription) (addSubs : List AddSubscriptionReq)
    (acc : List Credit × Nat) (e : AddCreditReq) : List Credit × Nat :=
  match e.access_schedule with
  | some sch =>
    sch.schedule_items.foldl
      (processScheduleItem allRecurring subs addSubs e sch.credit_type_id) acc
  | none =>
    let c : Credit :=
      { id := generateId "credit" acc.2, productId := e.product_id,
        access_schedule := none, archived_at := none,
        tier_id := e.tier_id, subscription_id := e.subscription_id }
    (acc.1 ++ [c], acc.2 + 1)

/-- The whole `add_credits` step (source lines 908-1019).  The
`[...addedRecurringCredits, ...contract.recurring_credits]` concatenation
is rebuilt per item in the source but neither list changes during this
step, so it is snapshotted here. -/
def processAddCredits (added : List RecurringCredit) (req : EditRequest)
    (c : Contract) (ctr : Nat) : Contract × Nat :=
  let allRecurring := added ++ c.recurring_credits
  let r := req.add_credits.foldl
    (processAddCreditEntry allRecurring c.subscriptions req.add_subscriptions)
    (c.credits, ctr)
  ({ c with credits := r.1 }, r.2)

/-- The `add_overrides` step (source lines 1022-1035). -/
def processAddOverrides (entries : List AddOverrideReq)
    (ovs : List ProductOverride) (ctr : Nat) : List ProductOverride × Nat :=
  entries.foldl
    (fun acc e =>
      (acc.1 ++ [⟨generateId "override" acc.2, e.product_id, e.starting_at, e.entitled⟩],
       acc.2 + 1))
    (ovs, ctr)

/-- The two prepaid-balance-threshold-configuration steps (source lines
1038-1070): patch field-by-field on "update" (initialising a disabled
all-zero configuration when absent), replace wholesale on "add"; record a
pending payment-gate status when a mock payment status is requested (on
"update": only when the status is truthy and a commit is configured; on
"add": whenever a commit is supplied, defaulting to "paid").  A present
`commit` is modelled as carrying its `product_id`. -/
def applyThresholdSteps (c : Contract) (req : EditRequest) :
    Contract × Option String :=
  let r1 : Contract × Option String :=
    match req.update_prepaid with
    | none => (c, none)
    | some patch =>
      let base := c.prepaid_config.getD
        { is_enabled := false, threshold_amount := some 0,
          recharge_to_amount := some 0, commit_product_id := none }
      let merged : ThresholdConfig :=
        { is_enabled := patch.is_enabled.getD base.is_enabled,
          threshold_amount :=
            if patch.threshold_amount.isSome then patch.threshold_amount
            else base.threshold_amount,
          recharge_to_amount :=
            if patch.recharge_to_amount.isSome then patch.recharge_to_amount
            else base.recharge_to_amount,
          commit_product_id :=
            if patch.commit_present then patch.commit_product_id
            else base.commit_product_id }
      let pending :=
        if optTruthy patch.mock_payment_status && merged.commit_product_id.isSome then
          some (if patch.mock_payment_status == some "failed" then "failed" else "paid")
        else none
      ({ c with prepaid_config := some merged }, pending)
  match req.add_prepaid with
  | none => r1
  | some r =>
    let cfg : ThresholdConfig :=
      { is_enabled := r.is_enabled, threshold_amount := r.threshold_amount,
        recharge_to_amount := r.recharge_to_amount,
        commit_product_id := if r.commit_present then r.commit_product_id else none }
    let pending :=
      if r.commit_present then
        some (if r.mock_payment_status == some "failed" then "failed" else "paid")
      else r1.2
    ({ r1.1 with prepaid_config := some cfg }, pending)

/-! ## Store operations (`src/store.ts`, `src/routes/balances.ts`) -/

/-- `MetronomeStore.getContractV2`. -/
def Store.getContractV2 (st : Store) (cid : String) : Option Contract :=
  (st.contractsV2.find? (fun kv => kv.1 == cid)).map (fun kv => kv.2)

/-- `MetronomeStore.updateContractV2` (whole-aggregate replace of an
existing entry; no-op when absent). -/
def Store.updateContractV2 (st : Store) (cid : String) (c : Contract) : Store :=
  { st with contractsV2 := st.contractsV2.map (fun kv => if kv.1 == cid then (kv.1, c) else kv) }

/-- `MetronomeStore.hasUniquenessKey`. -/
def Store.hasUniquenessKey (st : Store) (k : String) : Bool :=
  st.uniquenessKeys.contains k

/-- `setBalanceForProduct` from `src/routes/balances.ts`: store the balance
for `(customerId, productId)` (the low-balance alert it may emit is a pure
side effect). -/
def setBalanceForProduct (st : Store) (customerId productId : String)
    (amount : Int) : Store :=
  { st with balances :=
      ((customerId, productId), amount) ::
        st.balances.filter (fun b => !(b.1 == (customerId, productId))) }

/-- The error outcomes `handleContractEdit` can return before mutating
anything. -/
inductive EditError where
  | missingContractId
  | missingCustomerId
  | contractNotFound
  | uniquenessConflict
deriving DecidableEq, Repr

/-- Outcome of one edit request: the (possibly unchanged) store, the
advanced id counter, and either an error or the generated edit id. -/
structure EditOutcome where
  store : Store
  ctr : Nat
  result : Except EditError String
deriving Repr

/-- `handleContractEdit` (source lines 189-1152): precondition checks (all
before any mutation), then the twelve processing steps in source order,
then persistence and the optional payment-gate balance push. -/
def handleContractEdit (now : DT) (req : EditRequest) (st : Store) (ctr : Nat) :
    EditOutcome :=
  if !(optTruthy req.contract_id) then ⟨st, ctr, .error .missingContractId⟩
  else if !(optTruthy req.customer_id) then ⟨st, ctr, .error .missingCustomerId⟩
  else
    let cid := req.contract_id.getD ""
    match Store.getContractV2 st cid with
    | none => ⟨st, ctr, .error .contractNotFound⟩
    | some c0 =>
      if !(some c0.customer_id == req.customer_id) then
        ⟨st, ctr, .error .contractNotFound⟩
      else if optTruthy req.uniqueness_key &&
          Store.hasUniquenessKey st (req.uniqueness_key.getD "") then
        ⟨st, ctr, .error .uniquenessConflict⟩
      else
        let c1 := { c0 with subscriptions :=
          (req.update_subscriptions.foldl
            (fun ss u => applyOneUpdateSubscription now u ss) c0.subscriptions) }
        let c2 := { c1 with recurring_credits :=
          (req.update_recurring_credits.foldl
            (fun rs u => applyOneUpdateRecurring u rs) c1.recurring_credits) }
        let c3 := { c2 with credits :=
          (req.archive_credits.foldl (fun cs a => applyOneArchive now a cs) c2.credits) }
        let r4 := applyAddSubscriptions req.add_subscriptions c3.subscriptions ctr
        let c4 := { c3 with subscriptions := r4.1 }
        let r5 := processAddRecurringCredits now req c4 r4.2
        let r6 := processAddCredits r5.2.1 req r5.1 r5.2.2
        let r7 := processAddOverrides req.add_overrides r6.1.overrides r6.2
        let c7 := { r6.1 with overrides := r7.1 }
        let r8 := applyThresholdSteps c7 req
        let c8 := r8.1
        let st1 :=
          if optTruthy req.uniqueness_key then
            { st with uniquenessKeys := st.uniquenessKeys ++ [req.uniqueness_key.getD ""] }
          else st
        let st2 := Store.updateContractV2 st1 cid c8
        let st3 :=
          match r8.2 with
          | none => st2
          | some status =>
            match c8.prepaid_config with
            | none => st2
            | some cfg =>
              match cfg.commit_product_id with
              | none => st2
              | some pid =>
                if pid == "" then st2
                else
                  let target :=
                    if status == "failed" then
                      min (cfg.recharge_to_amount.getD 0) (cfg.threshold_amount.getD 0)
                    else
                      ((cfg.recharge_to_amount.orElse
                          (fun _ => cfg.threshold_amount)).getD 0)
                  setBalanceForProduct st2 c8.customer_id pid target
        ⟨st3, r7.2 + 1, .ok (generateId "edit" r7.2)⟩

/-! ## Derived predicates used to state the claims -/

/-- Number of recurring credits in `rcs` that are active matches for the
tuple `(p, s, b)` evaluated at the tuple's own start `s` — the notion the
duplicate-suppression guard of `add_recurring_credits` queries. -/
def countActiveRecurring (rcs : List RecurringCredit) (p : String) (s : DT)
    (b : Option String) : Nat :=
  (rcs.filter (fun r => isActiveRecurring s r p s b)).length

/-- A recurring credit that is active at its own (normalised) start: no
end time, or an end time whose hour-floored value is strictly after the
hour-floored start. -/
def activeAtOwnStart (r : RecurringCredit) : Bool :=
  match r.ending_before with
  | none => true
  | some e => !(DT.le (startOfHour e) (startOfHour r.starting_at))

/-- Two recurring credits occupying the same `(product, normalised start,
subscription binding)` tuple while both active at that start. -/
def sameActiveTuple (r1 r2 : RecurringCredit) : Bool :=
  r1.productId == r2.productId &&
  startOfHour r1.starting_at == startOfHour r2.starting_at &&
  r1.subscription_id == r2.subscription_id &&
  activeAtOwnStart r1 && activeAtOwnStart r2

/-- No two recurring credits in the list occupy the same active tuple
(the decidable form of the at-most-one-active invariant). -/
def noDupActiveTuples : List RecurringCredit → Bool
  | [] => true
  | r :: rs => rs.all (fun x => !(sameActiveTuple r x)) && noDupActiveTuples rs

/-- Two unarchived credits for the same product and the same subscription
binding (or the same tier when unbound) whose first schedule items carry
identical `{starting_at, ending_before}`. -/
def sameUnarchivedSlot (c1 c2 : Credit) : Bool :=
  c1.archived_at.isNone && c2.archived_at.isNone &&
  c1.productId == c2.productId &&
  c1.subscription_id == c2.subscription_id &&
  (c1.subscription_id.isSome || c1.tier_id == c2.tier_id) &&
  (match c1.access_schedule.bind (fun a => a.schedule_items.head?),
         c2.access_schedule.bind (fun a => a.schedule_items.head?) with
   | some i1, some i2 =>
     i1.starting_at == i2.starting_at && i1.ending_before == i2.ending_before
   | _, _ => false)

/-- The no-duplicate-credit invariant of the spec, in decidable form. -/
def creditsDupFree : List Credit → Bool
  | [] => true
  | c :: cs => cs.all (fun x => !(sameUnarchivedSlot c x)) && creditsDupFree cs

/-- Number of unarchived credits on a contract. -/
def unarchivedCreditCount (c : Contract) : Nat :=
  (c.credits.filter (fun cr => cr.archived_at.isNone)).length

/-- The four conditions the claims name for triggering credit bridging on
one `add_recurring_credits` entry: hour-floored start strictly after now,
a non-null target subscription id, a matching currently-active
subscription resolved, and the target id named by `update_subscriptions`
or distinct from the resolved subscription's id. -/
def bridgeConds (env : REnv) (subs : List Subscription) (e : AddRecurringReq) : Bool :=
  match e.subscription_id with
  | none => false
  | some t =>
    DT.lt env.now (startOfHour e.starting_at) &&
    (match resolveMatchingSub env.now subs env.addSubs env.endingSubs t with
     | none => false
     | some m => env.endingSubIds.contains t || !(m.id == some t))

/-! ## General helper lemmas -/

theorem updateFirst_all_neg (p : α → Bool) (f : α → α) (l : List α)
    (h : l.all (fun x => !(p x)) = true) : updateFirst p f l = l := by
  induction l with
  | nil => rfl
  | cons x xs ih =>
    simp only [List.all_cons, Bool.and_eq_true, Bool.not_eq_true'] at h
    simp [updateFirst, h.1, ih (by simpa using h.2)]

theorem dtle_false_lt (a b : DT) (h : DT.le a b = false) : DT.lt b a = true := by
  simp only [DT.le, decide_eq_false_iff_not, not_le] at h
  simpa [DT.lt] using h

theorem countActiveRecurring_append (rcs : List RecurringCredit)
    (r0 : RecurringCredit) (p : String) (s : DT) (b : Option String) :
    countActiveRecurring (rcs ++ [r0]) p s b =
      countActiveRecurring rcs p s b +
        (if isActiveRecurring s r0 p s b = true then 1 else 0) := by
  simp only [countActiveRecurring, List.filter_append, List.length_append]
  congr 1
  by_cases h : isActiveRecurring s r0 p s b = true <;> simp [h, List.filter]

theorem find?_none_countActive (rcs : List RecurringCredit) (p : String) (s : DT)
    (b : Option String)
    (h : rcs.find? (fun r => isActiveRecurring s r p s b) = none) :
    countActiveRecurring rcs p s b = 0 := by
  rw [List.find?_eq_none] at h
  simp only [countActiveRecurring, List.length_eq_zero]
  rw [List.filter_eq_nil_iff]
  intro r hr
  simpa using h r hr

theorem isActive_unique_tuple (r : RecurringCredit) (p1 : String) (s1 : DT)
    (b1 : Option String) (p2 : String) (s2 : DT) (b2 : Option String)
    (h1 : isActiveRecurring s1 r p1 s1 b1 = true)
    (h2 : isActiveRecurring s2 r p2 s2 b2 = true) :
    p1 = p2 ∧ s1 = s2 ∧ b1 = b2 := by
  simp only [isActiveRecurring, Bool.and_eq_true, beq_iff_eq] at h1 h2
  obtain ⟨⟨⟨hp1, hs1⟩, hb1⟩, _⟩ := h1
  obtain ⟨⟨⟨hp2, hs2⟩, hb2⟩, _⟩ := h2
  exact ⟨hp1 ▸ hp2.symm ▸ rfl, hs1 ▸ hs2.symm ▸ rfl, hb1 ▸ hb2.symm ▸ rfl⟩

/-- The at-most-one-active-recurring-credit invariant, tuple-quantified. -/
def RecurringInvariant (rcs : List RecurringCredit) : Prop :=
  ∀ p s b, countActiveRecurring rcs p s b ≤ 1

theorem inv_push (rcs : List RecurringCredit) (r0 : RecurringCredit)
    (pg : String) (sg : DT) (bg : Option String)
    (hguard : rcs.find? (fun r => isActiveRecurring sg r pg sg bg) = none)
    (hr : isActiveRecurring sg r0 pg sg bg = true)
    (hinv : RecurringInvariant rcs) :
    RecurringInvariant (rcs ++ [r0]) := by
  intro p s b
  rw [countActiveRecurring_append]
  by_cases hm : isActiveRecurring s r0 p s b = true
  · obtain ⟨hp, hs, hb⟩ := isActive_unique_tuple r0 pg sg bg p s b hr hm
    subst hp; subst hs; subst hb
    rw [find?_none_countActive _ _ _ _ hguard]
    simp [hm]
  · simpa [hm] using hinv p s b

theorem sameActiveTuple_of_matches (r x : RecurringCredit) (p : String) (s : DT)
    (b : Option String)
    (h1 : isActiveRecurring s r p s b = true)
    (h2 : isActiveRecurring s x p s b = true) :
    sameActiveTuple r x = true := by
  simp only [isActiveRecurring, Bool.and_eq_true, beq_iff_eq] at h1 h2
  obtain ⟨⟨⟨hp1, hs1⟩, hb1⟩, he1⟩ := h1
  obtain ⟨⟨⟨hp2, hs2⟩, hb2⟩, he2⟩ := h2
  simp only [sameActiveTuple, Bool.and_eq_true, beq_iff_eq]
  refine ⟨⟨⟨⟨hp1.trans hp2.symm, hs1.trans hs2.symm⟩, hb1.trans hb2.symm⟩, ?_⟩, ?_⟩
  · unfold activeAtOwnStart
    cases hre : r.ending_before with
    | none => rfl
    | some e =>
      rw [hre] at he1
      rw [hs1]
      simpa using he1
  · unfold activeAtOwnStart
    cases hxe : x.ending_before with
    | none => rfl
    | some e =>
      rw [hxe] at he2
      rw [hs2]
      simpa using he2

theorem noDup_imp_invariant (rcs : List RecurringCredit)
    (h : noDupActiveTuples rcs = true) : RecurringInvariant rcs := by
  induction rcs with
  | nil => intro p s b; simp [countActiveRecurring]
  | cons r rs ih =>
    simp only [noDupActiveTuples, Bool.and_eq_true, List.all_eq_true] at h
    intro p s b
    by_cases hr : isActiveRecurring s r p s b = true
    · have h0 : countActiveRecurring rs p s b = 0 := by
        by_contra hC
        have hne : (rs.filter (fun x => isActiveRecurring s x p s b)) ≠ [] := by
          intro hnil
          exact hC (by simp [countActiveRecurring, hnil])
        obtain ⟨x, hx⟩ := List.exists_mem_of_ne_nil _ hne
        have hxm := List.mem_filter.mp hx
        have hsame := sameActiveTuple_of_matches r x p s b hr hxm.2
        have := h.1 x hxm.1
        simp [hsame] at this
      simp only [countActiveRecurring, List.filter_cons, hr, if_true]
      simp only [countActiveRecurring] at h0
      simp [h0]
    · simp only [countActiveRecurring, List.filter_cons, hr]
      simpa [countActiveRecurring] using ih h.2 p s b

theorem dedup_preserves_inv (st : RState) (e : AddRecurringReq)
    (he : e.subscription_id ≠ some "")
    (h : RecurringInvariant st.c.recurring_credits) :
    RecurringInvariant (dedupAddRecurring st e).c.recurring_credits := by
  unfold dedupAddRecurring
  cases hf : st.c.recurring_credits.find?
      (fun r => isActiveRecurring (startOfHour e.starting_at) r e.product_id
        (startOfHour e.starting_at) e.subscription_id) with
  | some r => simpa [hf] using h
  | none =>
    simp only [hf]
    refine inv_push _ _ e.product_id (startOfHour e.starting_at) e.subscription_id hf ?_ h
    cases hsub : e.subscription_id with
    | none => simp [isActiveRecurring, optTruthy, hsub, startOfHour_idem]
    | some t =>
      have ht : t ≠ "" := by
        intro hts
        exact he (by rw [hsub, hts])
      simp [isActiveRecurring, optTruthy, hsub, ht, startOfHour_idem]

theorem bridgeContextStep_preserves_inv (rcStart : DT) (t : String)
    (mkP : ProductContext → BridgeParams) (st : RState) (ctx : ProductContext)
    (ht : t ≠ "") (hfl : startOfHour rcStart = rcStart)
    (h : RecurringInvariant st.c.recurring_credits) :
    RecurringInvariant (bridgeContextStep rcStart t mkP st ctx).c.recurring_credits := by
  unfold bridgeContextStep
  cases hf : st.c.recurring_credits.find?
      (fun r => isActiveRecurring rcStart r ctx.productId (startOfHour rcStart) (some t)) with
  | some r =>
    by_cases hAdd : ctx.hasMatchingAddCredit = true <;> simpa [hf, hAdd] using h
  | none =>
    simp only [hf, Option.isSome_none, Bool.false_and, Bool.false_eq_true, if_false,
      Option.isSome_some]
    rw [hfl] at hf
    refine inv_push _ _ ctx.productId rcStart (some t) hf ?_ h
    simp [isActiveRecurring, hfl, startOfHour_idem, ht]

theorem fold_ctx_preserves_inv (rcStart : DT) (t : String)
    (mkP : ProductContext → BridgeParams) (l : List ProductContext) (st : RState)
    (ht : t ≠ "") (hfl : startOfHour rcStart = rcStart)
    (h : RecurringInvariant st.c.recurring_credits) :
    RecurringInvariant ((l.foldl (bridgeContextStep rcStart t mkP) st)).c.recurring_credits := by
  induction l generalizing st with
  | nil => simpa using h
  | cons x xs ih =>
    exact ih _ (bridgeContextStep_preserves_inv rcStart t mkP st x ht hfl h)

theorem bridgeForEntry_preserves_inv (env : REnv) (st : RState) (e : AddRecurringReq)
    (h : RecurringInvariant st.c.recurring_credits) :
    RecurringInvariant (bridgeForEntry env st e).c.recurring_credits := by
  unfold bridgeForEntry
  cases hsub : e.subscription_id with
  | none => simpa using h
  | some t =>
    by_cases hg : (DT.le (startOfHour e.starting_at) env.now || t == "") = true
    · simpa [hg] using h
    · have ht : t ≠ "" := by
        intro hts
        simp [hts] at hg
      simp only [hg, Bool.false_eq_true, if_false]
      cases hres : resolveMatchingSub env.now st.c.subscriptions env.addSubs env.endingSubs t with
      | none => simpa using h
      | some m =>
        dsimp only
        by_cases hu : (DT.lt env.now (startOfHour e.starting_at) &&
            (env.endingSubIds.contains t || !(m.id == some t))) = true
        · simp only [hu, Bool.not_true, Bool.false_eq_true, if_false]
          by_cases hgap : (DT.le (bridgePeriodEnd (startOfHour e.starting_at))
              (bridgePeriodStart env.now st.c.starting_at)) = true
          · simpa [hgap] using h
          · simp only [hgap, Bool.false_eq_true, if_false]
            exact fold_ctx_preserves_inv _ _ _ _ _ ht (startOfHour_idem _) h
        · simp only [Bool.not_eq_true] at hu
          rw [hu]
          simpa using h

theorem entries_fold_preserves_inv (env : REnv) (entries : List AddRecurringReq)
    (st : RState)
    (hprov : ∀ e ∈ entries, e.subscription_id ≠ some "")
    (h : RecurringInvariant st.c.recurring_credits) :
    RecurringInvariant
      ((entries.foldl (processRecurringEntry env) st)).c.recurring_credits := by
  induction entries generalizing st with
  | nil => simpa using h
  | cons x xs ih =>
    simp only [List.foldl_cons]
    refine ih _ (fun e he => hprov e (List.mem_cons_of_mem _ he)) ?_
    exact bridgeForEntry_preserves_inv env _ x
      (dedup_preserves_inv st x (hprov x (List.mem_cons_self _ _)) h)

/-! ## Concrete fixtures used by witnesses and counterexamples -/

/-- 2024-01-01T00:00:00Z. -/
def dtJan1 : DT := ⟨2024, 0, 1, 0, 0, 0, 0⟩

/-- 2024-01-05T00:00:00Z. -/
def dtJan5 : DT := ⟨2024, 0, 5, 0, 0, 0, 0⟩

/-- 2024-01-15T10:30:00Z, the request instant of the fixtures. -/
def dtJan15 : DT := ⟨2024, 0, 15, 10, 30, 0, 0⟩

/-- 2024-01-20T00:00:00Z. -/
def dtJan20 : DT := ⟨2024, 0, 20, 0, 0, 0, 0⟩

/-- 2024-02-01T00:00:00Z. -/
def dtFeb1 : DT := ⟨2024, 1, 1, 0, 0, 0, 0⟩

/-- 2024-03-01T00:00:00Z. -/
def dtMar1 : DT := ⟨2024, 2, 1, 0, 0, 0, 0⟩

/-- The credits stored for a contract id, empty when the contract is absent. -/
def storedCredits (st : Store) (cid : String) : List Credit :=
  match Store.getContractV2 st cid with
  | some c => c.credits
  | none => []

/-- The number of unarchived credits stored for a contract id. -/
def storedUnarchivedCount (st : Store) (cid : String) : Nat :=
  ((storedCredits st cid).filter (fun cr => cr.archived_at.isNone)).length

/-! ## Claim C1 -/

/-- C1: for every edit request and every `add_recurring_credits` entry,
bridge credits are synthesised only when the recurring credit's
hour-floored start is strictly after now, its target subscription id is
non-null, a matching currently-active subscription is found, and either
the target id appears in the edit's `update_subscriptions` ids or the
matching subscription's id differs from the target id: whenever that
conjunction (`bridgeConds`) fails, the bridging attempt is the identity on
the state — no bridge credit and no extra recurring credit is created for
the entry, and no error is raised. -/
theorem bridging_requires_uncancel_conditions (env : REnv) (st : RState)
    (e : AddRecurringReq)
    (h : bridgeConds env st.c.subscriptions e = false) :
    bridgeForEntry env st e = st := by
  unfold bridgeForEntry
  unfold bridgeConds at h
  cases hsub : e.subscription_id with
  | none => rfl
  | some t =>
    rw [hsub] at h
    by_cases hg : (DT.le (startOfHour e.starting_at) env.now || t == "") = true
    · simp [hg]
    · have hlt : DT.lt env.now (startOfHour e.starting_at) = true := by
        simp only [Bool.or_eq_true, not_or, Bool.not_eq_true] at hg
        exact dtle_false_lt _ _ hg.1
      simp only [hlt, Bool.true_and] at h
      simp only [hg, Bool.false_eq_true, if_false]
      cases hres : resolveMatchingSub env.now st.c.subscriptions env.addSubs
          env.endingSubs t with
      | none => rfl
      | some m =>
        rw [hres] at h
        dsimp only at h ⊢
        rw [h]
        simp

/-- Witness for C1 at a concrete input: an entry with no target
subscription id fails the conditions and leaves the state untouched. -/
theorem bridging_requires_uncancel_conditions_witness :
    bridgeConds ⟨dtJan15, [], [], [], []⟩
        (⟨⟨"con", "cust", dtJan1, none, [], [], [], [], none⟩, [], 0⟩ : RState).c.subscriptions
        { product_id := "p", starting_at := dtFeb1, subscription_id := none } = false
      ∧ bridgeForEntry ⟨dtJan15, [], [], [], []⟩
          ⟨⟨"con", "cust", dtJan1, none, [], [], [], [], none⟩, [], 0⟩
          { product_id := "p", starting_at := dtFeb1, subscription_id := none }
        = ⟨⟨"con", "cust", dtJan1, none, [], [], [], [], none⟩, [], 0⟩ :=
  ⟨by decide,
   bridging_requires_uncancel_conditions _ _ _ (by decide)⟩

/-! ## Claim C2 -/

/-- C2: for every bridging attempt, the bridged current period is
`currentPeriodStart = floorToHour(max(contract.starting_at, floorToMonth(now)))`
(the larger instant in `getTime()` order, ties resolved to
`floorToMonth(now)` exactly as the source's conditional does) and
`currentPeriodEnd = floorToHour(floorToMonth(recurringCreditStart))`; and
whenever `currentPeriodEnd <= currentPeriodStart`, the whole bridging
attempt for that recurring-credit entry is the identity — no bridge
credits are created. -/
theorem bridge_period_bounds_and_gap_skip (env : REnv) (st : RState)
    (e : AddRecurringReq)
    (h : DT.le (bridgePeriodEnd (startOfHour e.starting_at))
        (bridgePeriodStart env.now st.c.starting_at) = true) :
    bridgePeriodStart env.now st.c.starting_at
        = startOfHour (DT.maxD (startOfMonth env.now) st.c.starting_at)
      ∧ bridgePeriodEnd (startOfHour e.starting_at)
        = startOfHour (startOfMonth e.starting_at)
      ∧ bridgeForEntry env st e = st := by
  refine ⟨rfl, rfl, ?_⟩
  unfold bridgeForEntry
  cases hsub : e.subscription_id with
  | none => rfl
  | some t =>
    by_cases hg : (DT.le (startOfHour e.starting_at) env.now || t == "") = true
    · simp [hg]
    · simp only [hg, Bool.false_eq_true, if_false]
      cases hres : resolveMatchingSub env.now st.c.subscriptions env.addSubs
          env.endingSubs t with
      | none => rfl
      | some m =>
        dsimp only
        by_cases hu : (DT.lt env.now (startOfHour e.starting_at) &&
            (env.endingSubIds.contains t || !(m.id == some t))) = true
        · simp only [hu, Bool.not_true, Bool.false_eq_true, if_false, h, if_true]
        · simp only [Bool.not_eq_true] at hu
          rw [hu]
          simp

/-- Witness for C2 at a concrete input: a recurring credit starting in the
future but inside the month the contract period anchor already occupies
yields `currentPeriodEnd <= currentPeriodStart`, and the bridging attempt
is skipped even though the uncancel conditions hold. -/
theorem bridge_period_bounds_and_gap_skip_witness :
    DT.le (bridgePeriodEnd (startOfHour dtJan20))
        (bridgePeriodStart dtJan15 dtJan1) = true
      ∧ bridgeForEntry ⟨dtJan15, [], [], ["X"], []⟩
          ⟨⟨"con", "cust", dtJan1, none,
            [⟨"X", dtJan1, none, "pp", "MONTHLY", [], none, none⟩], [], [], [], none⟩, [], 0⟩
          { product_id := "p", starting_at := dtJan20, subscription_id := some "X" }
        = ⟨⟨"con", "cust", dtJan1, none,
            [⟨"X", dtJan1, none, "pp", "MONTHLY", [], none, none⟩], [], [], [], none⟩, [], 0⟩ :=
  ⟨by decide,
   (bridge_period_bounds_and_gap_skip ⟨dtJan15, [], [], ["X"], []⟩
      ⟨⟨"con", "cust", dtJan1, none,
        [⟨"X", dtJan1, none, "pp", "MONTHLY", [], none, none⟩], [], [], [], none⟩, [], 0⟩
      { product_id := "p", starting_at := dtJan20, subscription_id := some "X" }
      (by decide)).2.2⟩

/-! ## Claim C3 -/

/-- An instant that is both an hour boundary and a month boundary. -/
def hourMonthAligned (d : DT) : Prop := startOfHour d = d ∧ startOfMonth d = d

/-- C3: for every subscription added by an edit, with period 1 month for
MONTHLY and 12 months for ANNUAL, the stored billing periods satisfy
`current.starting_at = floorToHour(floorToMonth(start))`,
`current.ending_before = floorToHour(floorToMonth(start) + period)`,
`next.starting_at = current.ending_before` (the same value appears in both
places of the stored record), and
`next.ending_before = floorToHour(floorToMonth(current.ending_before) + period)`;
and all four boundaries are hour-aligned month boundaries. -/
theorem added_subscription_billing_periods (e : AddSubscriptionReq) (ctr : Nat)
    (h : e.billing_frequency = "MONTHLY" ∨ e.billing_frequency = "ANNUAL") :
    (buildSubscription e ctr).1.billing_periods =
      some ⟨⟨startOfHour (startOfMonth e.starting_at),
             some (startOfHour (addMonths (startOfMonth e.starting_at)
               (if e.billing_frequency = "MONTHLY" then 1 else 12)))⟩,
            some ⟨startOfHour (addMonths (startOfMonth e.starting_at)
                    (if e.billing_frequency = "MONTHLY" then 1 else 12)),
                  some (startOfHour (addMonths
                    (startOfMonth (startOfHour (addMonths (startOfMonth e.starting_at)
                      (if e.billing_frequency = "MONTHLY" then 1 else 12))))
                    (if e.billing_frequency = "MONTHLY" then 1 else 12)))⟩⟩
      ∧ hourMonthAligned (startOfHour (startOfMonth e.starting_at))
      ∧ hourMonthAligned (startOfHour (addMonths (startOfMonth e.starting_at)
          (if e.billing_frequency = "MONTHLY" then 1 else 12)))
      ∧ hourMonthAligned (startOfHour (addMonths
          (startOfMonth (startOfHour (addMonths (startOfMonth e.starting_at)
            (if e.billing_frequency = "MONTHLY" then 1 else 12))))
          (if e.billing_frequency = "MONTHLY" then 1 else 12))) := by
  rcases h with h | h <;>
  · simp only [buildSubscription, h, hourMonthAligned, if_true, if_false,
      reduceIte, beq_self_eq_true]
    exact ⟨rfl, ⟨rfl, rfl⟩, ⟨rfl, rfl⟩, rfl, rfl⟩

/-- Witness for C3 at a concrete input (a MONTHLY subscription starting
2024-01-15T10:30:00Z). -/
theorem added_subscription_billing_periods_witness :
    ((⟨none, dtJan15, "pp", "MONTHLY", none, none⟩ : AddSubscriptionReq).billing_frequency
        = "MONTHLY"
      ∨ (⟨none, dtJan15, "pp", "MONTHLY", none, none⟩ : AddSubscriptionReq).billing_frequency
        = "ANNUAL")
    ∧ (buildSubscription ⟨none, dtJan15, "pp", "MONTHLY", none, none⟩ 0).1.billing_periods =
      some ⟨⟨startOfHour (startOfMonth dtJan15),
             some (startOfHour (addMonths (startOfMonth dtJan15) 1))⟩,
            some ⟨startOfHour (addMonths (startOfMonth dtJan15) 1),
                  some (startOfHour (addMonths
                    (startOfMonth (startOfHour (addMonths (startOfMonth dtJan15) 1))) 1))⟩⟩ :=
  ⟨Or.inl rfl,
   by
    have h := (added_subscription_billing_periods
      ⟨none, dtJan15, "pp", "MONTHLY", none, none⟩ 0 (Or.inl rfl)).1
    simpa using h⟩

/-! ## Claim C4 -/

/-- The contract of the C4 counterexample: no recurring credits yet. -/
def c4Contract : Contract := { id := "con4", customer_id := "cust", starting_at := dtJan1 }

/-- The C4 counterexample entry: a recurring credit whose
`subscription_config.subscription_id` is the empty string. -/
def c4Entry : AddRecurringReq :=
  { product_id := "p", starting_at := dtJan1, subscription_id := some "" }

/-- The C4 counterexample edit: the same recurring credit submitted twice
in one edit. -/
def c4Req : EditRequest :=
  { contract_id := some "con4", customer_id := some "cust",
    add_recurring_credits := [c4Entry, c4Entry] }

/-- Counterexample to C4 as stated: submitting the identical recurring
credit twice (same product `"p"`, same start, same subscription config
carrying the empty-string id) yields two recurring-credit records that are
both active for the tuple `(product "p", hour-floored start, unbound)`.
The duplicate check compares the requested binding (`some ""`) while the
stored record keeps no binding (the empty string is falsy), so the second
submission never matches the first. -/
theorem duplicate_active_recurring_from_empty_binding :
    countActiveRecurring
        (processAddRecurringCredits dtJan15 c4Req c4Contract 0).1.recurring_credits
        "p" dtJan1 none = 2 := by
  decide

/-- C4 as amended: provided every `add_recurring_credits` entry's target
subscription id is absent or non-empty (an empty-string id is stored as no
binding but compared as a distinct binding, breaking the dedup check),
processing `add_recurring_credits` preserves the invariant that at most
one recurring credit per `(product, hour-normalised start, subscription
binding)` tuple is active at that tuple's start; a bound and an unbound
recurring credit are never treated as the same. -/
theorem recurring_invariant_preserved (now : DT) (req : EditRequest)
    (c : Contract) (ctr : Nat)
    (h1 : noDupActiveTuples c.recurring_credits = true)
    (h2 : ∀ e ∈ req.add_recurring_credits, e.subscription_id ≠ some "") :
    ∀ p s b, countActiveRecurring
        (processAddRecurringCredits now req c ctr).1.recurring_credits p s b ≤ 1 := by
  have h := entries_fold_preserves_inv
    ⟨now, req.add_subscriptions, req.add_credits,
      req.update_subscriptions.map (fun u => u.subscription_id),
      c.subscriptions.filter (fun s =>
        (req.update_subscriptions.map (fun u => u.subscription_id)).contains s.id)⟩
    req.add_recurring_credits ⟨c, [], ctr⟩ h2 (noDup_imp_invariant _ h1)
  exact h

/-- A well-formed recurring-credit entry used by the C4 witness. -/
def c4wEntry : AddRecurringReq :=
  { product_id := "p", starting_at := dtFeb1, subscription_id := some "X" }

/-- The edit of the C4 witness. -/
def c4wReq : EditRequest :=
  { contract_id := some "con4", customer_id := some "cust",
    add_recurring_credits := [c4wEntry] }

/-- Witness for C4 at a concrete input: one well-formed entry added to a
contract with no recurring credits. -/
theorem recurring_invariant_preserved_witness :
    noDupActiveTuples c4Contract.recurring_credits = true
    ∧ (∀ e ∈ c4wReq.add_recurring_credits, e.subscription_id ≠ some "")
    ∧ ∀ p s b, countActiveRecurring
        (processAddRecurringCredits dtJan15 c4wReq c4Contract 0).1.recurring_credits
          p s b ≤ 1 :=
  ⟨by decide, by decide,
   recurring_invariant_preserved dtJan15 c4wReq c4Contract 0 (by decide) (by decide)⟩

/-! ## Claim C5 -/

/-- The C5 counterexample contract: it carries exactly one recurring
credit for product `"p"` starting 2024-02-01 whose `ending_before` equals
its own start, so it is not active at that instant. -/
def c5Contract : Contract :=
  { id := "con5", customer_id := "cust", starting_at := dtJan1,
    recurring_credits :=
      [{ id := "r1", productId := "p", starting_at := dtFeb1,
         ending_before := some dtFeb1 }] }

/-- The C5 counterexample `add_credits` entry: its only schedule item ends
exactly at the recurring credit's start. -/
def c5Entry : AddCreditReq :=
  { product_id := "p", access_schedule := some ⟨"ct", [⟨dtJan1, dtFeb1, 7⟩]⟩ }

/-- The C5 counterexample edit. -/
def c5Req : EditRequest :=
  { contract_id := some "con5", customer_id := some "cust",
    add_credits := [c5Entry] }

/-- Counterexample to C5 as stated: no recurring credit on the contract is
*active* at the schedule item's hour-floored `ending_before` (first
conjunct — the only candidate has ended by then), yet processing the
`add_credits` entry appends two credits (the plain one plus an automatic
next-period one): the auto-generation matcher never looks at the recurring
credit's `ending_before`, so an ended recurring credit still triggers it. -/
theorem auto_next_credit_ignores_recurring_end :
    (c5Contract.recurring_credits.all
        (fun r => !(isActiveRecurring (startOfHour dtFeb1) r "p"
          (startOfHour dtFeb1) none)) = true)
    ∧ (processAddCredits [] c5Req c5Contract 0).1.credits.length = 2 := by
  decide

/-- C5 as amended: for every `add_credits` schedule item, when some
recurring credit (newly added first, then the contract's) matches on
product, hour-floored start equal to the hour-floored `ending_before`, and
compatible binding — *regardless of the recurring credit's own
`ending_before`* — exactly one additional next-period credit is appended,
covering `[floorToHour(floorToMonth(ending_before)),
floorToHour(floorToMonth(ending_before) + 1 month))`, carrying the same
amount as the triggering schedule item and the binding/tier resolved from
the recurring credit's bound subscription (`autoNextBinding`); when no
recurring credit matches, only the plain credit is appended. -/
theorem schedule_item_auto_next_credit (allRecurring : List RecurringCredit)
    (subs : List Subscription) (addSubs : List AddSubscriptionReq)
    (e : AddCreditReq) (ctid : String) (acc : List Credit × Nat)
    (it : ScheduleItem) :
    processScheduleItem allRecurring subs addSubs e ctid acc it =
      (match allRecurring.find? (autoNextMatch e it) with
       | none => (acc.1 ++ [buildPlainCredit e ctid it acc.2], acc.2 + 1)
       | some mrc =>
         (acc.1 ++ [buildPlainCredit e ctid it acc.2,
           { id := generateId "credit" (acc.2 + 1), productId := e.product_id,
             access_schedule := some ⟨ctid,
               [⟨startOfHour (startOfMonth it.ending_before),
                 startOfHour (addMonths (startOfMonth it.ending_before) 1),
                 it.amount⟩]⟩,
             archived_at := none,
             tier_id := (autoNextBinding subs addSubs e mrc).2,
             subscription_id :=
               if optTruthy (autoNextBinding subs addSubs e mrc).1 then
                 (autoNextBinding subs addSubs e mrc).1
               else none }],
          acc.2 + 2))
    ∧ (processScheduleItem allRecurring subs addSubs e ctid acc it).1.length =
        acc.1.length +
          (if (allRecurring.find? (autoNextMatch e it)).isSome then 2 else 1) := by
  cases hf : allRecurring.find? (autoNextMatch e it) with
  | none =>
    constructor
    · simp only [processScheduleItem, hf]
    · simp [processScheduleItem, hf]
  | some mrc =>
    constructor
    · simp only [processScheduleItem, hf]
      rw [List.append_assoc]
      rfl
    · simp [processScheduleItem, hf]

/-! ## Claim C6 -/

/-- The currently active subscription of the C6 scenario (being ended by
the edit via `update_subscriptions`). -/
def c6SubY : Subscription :=
  { id := "Y", starting_at := dtJan1, productId := "prodY", billingFrequency := "MONTHLY" }

/-- The future-dated target subscription of the C6 scenario. -/
def c6SubX : Subscription :=
  { id := "X", starting_at := dtFeb1, productId := "prodX", billingFrequency := "MONTHLY" }

/-- The C6 scenario contract. -/
def c6Contract : Contract :=
  { id := "con6", customer_id := "cust", starting_at := dtJan1,
    subscriptions := [c6SubY, c6SubX] }

/-- The C6 scenario store. -/
def c6Store : Store := { contractsV2 := [("con6", c6Contract)] }

/-- The C6 recurring-credit entry: future-dated, bound to subscription `X`. -/
def c6Recurring : AddRecurringReq :=
  { product_id := "p", starting_at := dtFeb1, subscription_id := some "X" }

/-- The C6 plain `add_credits` entry for product `"q"`. -/
def c6AddCredit : AddCreditReq :=
  { product_id := "q", access_schedule := some ⟨"ct", [⟨dtJan1, dtJan5, 5⟩]⟩ }

/-- The C6 scenario edit: it ends subscription `Y`, adds a future recurring
credit for product `"p"` bound to subscription `X` (which triggers
bridging), and adds a plain one-time credit for product `"q"`. -/
def c6Req : EditRequest :=
  { contract_id := some "con6", customer_id := some "cust",
    update_subscriptions := [⟨"Y", some dtMar1⟩],
    add_recurring_credits := [c6Recurring],
    add_credits := [c6AddCredit] }

/-- The first submission of the C6 edit. -/
def c6Run1 : EditOutcome := handleContractEdit dtJan15 c6Req c6Store 0

/-- The identical edit resubmitted against the resulting store. -/
def c6Run2 : EditOutcome := handleContractEdit dtJan15 c6Req c6Run1.store c6Run1.ctr

/-- Counterexample to C6 as stated: the first submission bridges the gap
(two of its credits are bound to the currently-active subscription `Y`,
third conjunct) and leaves five unarchived credits; resubmitting the
identical edit yields six — the bridge upserts are reused in place, but
the edit's plain `add_credits` entry is appended unconditionally again, so
the number of unarchived credits is not unchanged. -/
theorem resubmitted_bridging_edit_grows_credits :
    storedUnarchivedCount c6Run1.store "con6" = 5
    ∧ storedUnarchivedCount c6Run2.store "con6" = 6
    ∧ ((storedCredits c6Run1.store "con6").filter
        (fun cr => cr.subscription_id == some "Y")).length = 2 := by
  decide

theorem applyCurrentMetadata_archived (P : BridgeParams) (c : Credit) :
    (applyCurrentMetadata P c).archived_at = c.archived_at := by
  unfold applyCurrentMetadata
  split <;> split <;> (try split) <;> rfl

theorem applyCurrentMetadata_product (P : BridgeParams) (c : Credit) :
    (applyCurrentMetadata P c).productId = c.productId := by
  unfold applyCurrentMetadata
  split <;> split <;> (try split) <;> rfl

theorem applyCurrentMetadata_schedule (P : BridgeParams) (c : Credit) :
    (applyCurrentMetadata P c).access_schedule = c.access_schedule := by
  unfold applyCurrentMetadata
  split <;> split <;> (try split) <;> rfl

theorem applyCurrentMetadata_subId (P : BridgeParams) (c : Credit)
    (hA : optTruthy P.activeSubId = true) :
    (applyCurrentMetadata P c).subscription_id = P.activeSubId := by
  unfold applyCurrentMetadata
  split <;> simp [hA]

theorem applyNextMetadata_archived (P : BridgeParams) (c : Credit) :
    (applyNextMetadata P c).archived_at = c.archived_at := by
  unfold applyNextMetadata
  split <;> split <;> rfl

theorem applyNextMetadata_product (P : BridgeParams) (c : Credit) :
    (applyNextMetadata P c).productId = c.productId := by
  unfold applyNextMetadata
  split <;> split <;> rfl

theorem applyNextMetadata_schedule (P : BridgeParams) (c : Credit) :
    (applyNextMetadata P c).access_schedule = c.access_schedule := by
  unfold applyNextMetadata
  split <;> split <;> rfl

theorem applyNextMetadata_subId (P : BridgeParams) (c : Credit)
    (hT : P.targetSubId ≠ "") :
    (applyNextMetadata P c).subscription_id = some P.targetSubId := by
  unfold applyNextMetadata
  split <;> simp [hT]

theorem bridgeCurrentMatch_apply (P : BridgeParams) (c : Credit)
    (hA : optTruthy P.activeSubId = true)
    (h : bridgeCurrentMatch P c = true) :
    bridgeCurrentMatch P (applyCurrentMetadata P c) = true := by
  unfold bridgeCurrentMatch at h ⊢
  rw [applyCurrentMetadata_archived, applyCurrentMetadata_product,
    applyCurrentMetadata_schedule, applyCurrentMetadata_subId P c hA]
  simp only [Bool.and_eq_true] at h ⊢
  refine ⟨⟨h.1.1, h.1.2⟩, ?_⟩
  cases hsch : c.access_schedule.bind (fun a => a.schedule_items.head?) with
  | none => rw [hsch] at h; exact absurd h.2 (by simp)
  | some it =>
    rw [hsch] at h
    simp only [Bool.and_eq_true] at h
    simp [h.2.1.1, h.2.1.2]

theorem bridgeCurrentMatch_fresh (P : BridgeParams) (ctr : Nat)
    (hA : optTruthy P.activeSubId = true) :
    bridgeCurrentMatch P (applyCurrentMetadata P
      { id := generateId "credit" ctr, productId := P.productId,
        access_schedule := some ⟨P.creditTypeId, [⟨P.cps, P.cpe, P.creditAmount⟩]⟩,
        archived_at := none, tier_id := none, subscription_id := none }) = true := by
  unfold bridgeCurrentMatch
  rw [applyCurrentMetadata_archived, applyCurrentMetadata_product,
    applyCurrentMetadata_schedule, applyCurrentMetadata_subId _ _ hA]
  simp [DT.keq]

theorem bridgeNextMatch_apply (P : BridgeParams) (c : Credit)
    (hT : P.targetSubId ≠ "")
    (h : bridgeNextMatch P c = true) :
    bridgeNextMatch P (applyNextMetadata P c) = true := by
  unfold bridgeNextMatch at h ⊢
  rw [applyNextMetadata_archived, applyNextMetadata_product,
    applyNextMetadata_schedule, applyNextMetadata_subId P c hT]
  simp only [Bool.and_eq_true] at h ⊢
  refine ⟨⟨h.1.1, h.1.2⟩, ?_⟩
  cases hsch : c.access_schedule.bind (fun a => a.schedule_items.head?) with
  | none => rw [hsch] at h; exact absurd h.2 (by simp)
  | some it =>
    rw [hsch] at h
    simp only [Bool.and_eq_true] at h
    simp [h.2.1.1, h.2.1.2]

theorem bridgeNextMatch_fresh (P : BridgeParams) (ctr : Nat)
    (hT : P.targetSubId ≠ "") :
    bridgeNextMatch P (applyNextMetadata P
      { id := generateId "credit" ctr, productId := P.productId,
        access_schedule := some ⟨P.creditTypeId,
          [⟨bridgeNextStart P, bridgeNextEnd P, P.creditAmount⟩]⟩,
        archived_at := none, tier_id := none, subscription_id := none }) = true := by
  unfold bridgeNextMatch
  rw [applyNextMetadata_archived, applyNextMetadata_product,
    applyNextMetadata_schedule, applyNextMetadata_subId _ _ hT]
  simp [DT.keq]

theorem upsertCurrent_has_match (P : BridgeParams) (cs : List Credit) (ctr : Nat)
    (hA : optTruthy P.activeSubId = true) :
    ∃ x ∈ (upsertCurrentCredit P cs ctr).1, bridgeCurrentMatch P x = true := by
  unfold upsertCurrentCredit
  cases hf : cs.find? (bridgeCurrentMatch P) with
  | some c =>
    refine ⟨applyCurrentMetadata P c, find?_eq_some_mem_updateFirst _ _ _ _ hf, ?_⟩
    exact bridgeCurrentMatch_apply P c hA (List.find?_some hf)
  | none =>
    refine ⟨_, List.mem_append_right _ (List.mem_singleton_self _), ?_⟩
    exact bridgeCurrentMatch_fresh P ctr hA

theorem upsertNext_has_match (P : BridgeParams) (cs : List Credit) (ctr : Nat)
    (hT : P.targetSubId ≠ "") :
    ∃ x ∈ (upsertNextCredit P cs ctr).1, bridgeNextMatch P x = true := by
  unfold upsertNextCredit
  cases hf : cs.find? (bridgeNextMatch P) with
  | some c =>
    refine ⟨applyNextMetadata P c, find?_eq_some_mem_updateFirst _ _ _ _ hf, ?_⟩
    exact bridgeNextMatch_apply P c hT (List.find?_some hf)
  | none =>
    refine ⟨_, List.mem_append_right _ (List.mem_singleton_self _), ?_⟩
    exact bridgeNextMatch_fresh P ctr hT

theorem upsertCurrent_length_of_match (P : BridgeParams) (cs : List Credit)
    (ctr : Nat) (h : ∃ x ∈ cs, bridgeCurrentMatch P x = true) :
    (upsertCurrentCredit P cs ctr).1.length = cs.length := by
  unfold upsertCurrentCredit
  cases hf : cs.find? (bridgeCurrentMatch P) with
  | some c => simp [updateFirst_length]
  | none =>
    rw [List.find?_eq_none] at hf
    obtain ⟨x, hx, hmx⟩ := h
    exact absurd hmx (by simpa using hf x hx)

theorem upsertNext_length_of_match (P : BridgeParams) (cs : List Credit)
    (ctr : Nat) (h : ∃ x ∈ cs, bridgeNextMatch P x = true) :
    (upsertNextCredit P cs ctr).1.length = cs.length := by
  unfold upsertNextCredit
  cases hf : cs.find? (bridgeNextMatch P) with
  | some c => simp [updateFirst_length]
  | none =>
    rw [List.find?_eq_none] at hf
    obtain ⟨x, hx, hmx⟩ := h
    exact absurd hmx (by simpa using hf x hx)

/-- C6 as amended: each bridge upsert is idempotent — after one run of the
current-period (resp. next-period) upsert, the credit list contains an
unarchived credit matching the same `{product, period}` and
subscription-or-tier, so running the same upsert again updates that credit
in place and leaves the number of credits unchanged — provided the
matching subscription carries an id (`activeSubId` truthy; it can be
absent when the resolver picks a raw `add_subscriptions` entry) and the
target subscription id is non-empty (bridging guarantees this).  A full
edit that also carries `add_credits` entries appends those
unconditionally, so resubmitting such an edit does grow the unarchived
credit count (see the counterexample). -/
theorem bridge_upserts_idempotent (P : BridgeParams) (cs : List Credit)
    (ctr1 ctr2 ctr3 ctr4 : Nat)
    (hA : optTruthy P.activeSubId = true) (hT : P.targetSubId ≠ "") :
    (upsertCurrentCredit P (upsertCurrentCredit P cs ctr1).1 ctr2).1.length
        = (upsertCurrentCredit P cs ctr1).1.length
    ∧ (upsertNextCredit P (upsertNextCredit P cs ctr3).1 ctr4).1.length
        = (upsertNextCredit P cs ctr3).1.length := by
  constructor
  · exact upsertCurrent_length_of_match P _ ctr2 (upsertCurrent_has_match P cs ctr1 hA)
  · exact upsertNext_length_of_match P _ ctr4 (upsertNext_has_match P cs ctr3 hT)

/-- Witness for C6's amended theorem at a concrete input: re-running both
upserts of a concrete bridge pair on an initially empty credit list leaves
the single appended credit in place. -/
theorem bridge_upserts_idempotent_witness :
    optTruthy (some "Y") = true ∧ "X" ≠ ""
    ∧ (upsertCurrentCredit ⟨"p", 5, "ct", dtJan1, dtFeb1, some "Y", none, none, "X"⟩
        (upsertCurrentCredit ⟨"p", 5, "ct", dtJan1, dtFeb1, some "Y", none, none, "X"⟩
          [] 0).1 1).1.length
      = (upsertCurrentCredit ⟨"p", 5, "ct", dtJan1, dtFeb1, some "Y", none, none, "X"⟩
          [] 0).1.length
    ∧ (upsertNextCredit ⟨"p", 5, "ct", dtJan1, dtFeb1, some "Y", none, none, "X"⟩
        (upsertNextCredit ⟨"p", 5, "ct", dtJan1, dtFeb1, some "Y", none, none, "X"⟩
          [] 0).1 1).1.length
      = (upsertNextCredit ⟨"p", 5, "ct", dtJan1, dtFeb1, some "Y", none, none, "X"⟩
          [] 0).1.length :=
  ⟨by decide, by decide,
   (bridge_upserts_idempotent ⟨"p", 5, "ct", dtJan1, dtFeb1, some "Y", none, none, "X"⟩
      [] 0 1 0 1 (by decide) (by decide)).1,
   (bridge_upserts_idempotent ⟨"p", 5, "ct", dtJan1, dtFeb1, some "Y", none, none, "X"⟩
      [] 0 1 0 1 (by decide) (by decide)).2⟩

/-! ## Claim C7 -/

/-- C7: for every edit request that fails its preconditions — missing
(falsy) `contract_id` or `customer_id`, contract not found or owned by a
different customer, or a supplied uniqueness key already registered — the
handler returns the corresponding error and performs no mutation at all:
the store (contract aggregates, uniqueness-key set, and customer
balances) and the id counter are exactly as before the request. -/
theorem edit_errors_leave_store_unchanged (now : DT) (req : EditRequest)
    (st : Store) (ctr : Nat) (err : EditError)
    (h : (handleContractEdit now req st ctr).result = .error err) :
    (handleContractEdit now req st ctr).store = st
      ∧ (handleContractEdit now req st ctr).ctr = ctr := by
  unfold handleContractEdit at h ⊢
  by_cases hA : optTruthy req.contract_id = true
  · by_cases hB : optTruthy req.customer_id = true
    · cases hC : Store.getContractV2 st (req.contract_id.getD "") with
      | none => simp [hA, hB, hC]
      | some c0 =>
        by_cases hD : (some c0.customer_id == req.customer_id) = true
        · by_cases hE : (optTruthy req.uniqueness_key &&
              Store.hasUniquenessKey st (req.uniqueness_key.getD "")) = true
          · simp [hA, hB, hC, hD, hE]
          · rw [hA, hB] at h
            simp only [Bool.not_true, Bool.false_eq_true, if_false] at h
            rw [hC] at h
            simp only [hD, Bool.not_true, Bool.false_eq_true, if_false, hE] at h
            simp at h
        · simp [hA, hB, hC, hD]
    · simp [hA, hB]
  · simp [hA]

/-- Witness for C7 at a concrete input: a request without a `contract_id`
is rejected and leaves the (nonempty) store and the counter untouched. -/
theorem edit_errors_leave_store_unchanged_witness :
    (handleContractEdit dtJan15 { customer_id := some "cust" } c6Store 3).result
        = .error .missingContractId
      ∧ (handleContractEdit dtJan15 { customer_id := some "cust" } c6Store 3).store
        = c6Store
      ∧ (handleContractEdit dtJan15 { customer_id := some "cust" } c6Store 3).ctr = 3 :=
  ⟨rfl,
   (edit_errors_leave_store_unchanged dtJan15 { customer_id := some "cust" }
      c6Store 3 .missingContractId rfl).1,
   (edit_errors_leave_store_unchanged dtJan15 { customer_id := some "cust" }
      c6Store 3 .missingContractId rfl).2⟩

/-! ## Claim C8 -/

/-- The pre-existing unarchived credit of the C8 counterexample. -/
def c8Credit : Credit :=
  { id := "c0", productId := "p", access_schedule := some ⟨"ct", [⟨dtJan1, dtFeb1, 3⟩]⟩ }

/-- The C8 counterexample contract: it satisfies the no-duplicate
invariant before the edit. -/
def c8Contract : Contract :=
  { id := "con8", customer_id := "cust", starting_at := dtJan1, credits := [c8Credit] }

/-- The C8 counterexample store. -/
def c8Store : Store := { contractsV2 := [("con8", c8Contract)] }

/-- The C8 counterexample `add_credits` entry: identical product, period
and (absent) binding to the pre-existing credit. -/
def c8Entry : AddCreditReq :=
  { product_id := "p", access_schedule := some ⟨"ct", [⟨dtJan1, dtFeb1, 3⟩]⟩ }

/-- The C8 counterexample edit. -/
def c8Req : EditRequest :=
  { contract_id := some "con8", customer_id := some "cust", add_credits := [c8Entry] }

/-- Counterexample to C8 as stated: the contract satisfies the
no-duplicate invariant before the edit (first conjunct), but after an edit
whose plain `add_credits` entry repeats the product, period and binding of
an existing unarchived credit, two unarchived credits share the same
`{product, period, binding}` slot: the plain `add_credits` path appends
unconditionally and does not deduplicate. -/
theorem plain_add_credits_duplicates_slot :
    creditsDupFree c8Contract.credits = true
      ∧ creditsDupFree
          (storedCredits (handleContractEdit dtJan15 c8Req c8Store 0).store "con8")
        = false := by
  decide

/-- C8 as amended: the bridge-upsert paths do deduplicate — whenever the
credit list already contains an unarchived credit with the same product,
the same `{starting_at, ending_before}` period and a matching
subscription-or-tier, the current-period (resp. next-period) bridge upsert
updates it in place and adds nothing — but the plain `add_credits` step
appends unconditionally, so the global invariant does not hold after every
edit. -/
theorem bridge_upserts_reuse_existing (P : BridgeParams) (cs : List Credit)
    (ctr1 ctr2 : Nat)
    (h1 : (cs.find? (bridgeCurrentMatch P)).isSome = true)
    (h2 : (cs.find? (bridgeNextMatch P)).isSome = true) :
    (upsertCurrentCredit P cs ctr1).1.length = cs.length
      ∧ (upsertNextCredit P cs ctr2).1.length = cs.length := by
  constructor
  · refine upsertCurrent_length_of_match P cs ctr1 ?_
    obtain ⟨c, hc⟩ := Option.isSome_iff_exists.mp h1
    exact ⟨c, List.mem_of_find?_eq_some hc, List.find?_some hc⟩
  · refine upsertNext_length_of_match P cs ctr2 ?_
    obtain ⟨c, hc⟩ := Option.isSome_iff_exists.mp h2
    exact ⟨c, List.mem_of_find?_eq_some hc, List.find?_some hc⟩

/-- The bridge parameters of the C8 witness. -/
def c8wParams : BridgeParams :=
  ⟨"p", 5, "ct", dtJan1, dtFeb1, some "Y", none, none, "X"⟩

/-- A credit matching the current-period slot of `c8wParams`. -/
def c8wCur : Credit :=
  { id := "cc", productId := "p", access_schedule := some ⟨"ct", [⟨dtJan1, dtFeb1, 5⟩]⟩,
    subscription_id := some "Y" }

/-- A credit matching the next-period slot of `c8wParams`. -/
def c8wNext : Credit :=
  { id := "cn", productId := "p", access_schedule := some ⟨"ct", [⟨dtFeb1, dtMar1, 5⟩]⟩,
    subscription_id := some "X" }

/-- Witness for C8's amended theorem at a concrete input: both upserts
reuse the matching credits already present and append nothing. -/
theorem bridge_upserts_reuse_existing_witness :
    (([c8wCur, c8wNext].find? (bridgeCurrentMatch c8wParams)).isSome = true)
      ∧ (([c8wCur, c8wNext].find? (bridgeNextMatch c8wParams)).isSome = true)
      ∧ (upsertCurrentCredit c8wParams [c8wCur, c8wNext] 0).1.length = 2
      ∧ (upsertNextCredit c8wParams [c8wCur, c8wNext] 0).1.length = 2 :=
  ⟨by decide, by decide,
   (bridge_upserts_reuse_existing c8wParams [c8wCur, c8wNext] 0 0
      (by decide) (by decide)).1,
   (bridge_upserts_reuse_existing c8wParams [c8wCur, c8wNext] 0 0
      (by decide) (by decide)).2⟩

/-! ## Claim C9 -/

/-- The C9 counterexample entry: it supplies `temporary_id = "tmp"` and
`initial_quantity = 0`. -/
def c9Entry : AddSubscriptionReq :=
  { temporary_id := some "tmp", starting_at := dtJan1, product_id := "pp",
    billing_frequency := "MONTHLY", initial_quantity := some 0 }

/-- Counterexample to C9 as stated: at this entry the claim predicts a
quantity schedule holding the supplied `initial_quantity` (0) and a
freshly generated identity (the generator's next output, `"sub_7"` under
counter 7); in fact the stored quantity is 1 (`initial_quantity || 1`
treats 0 as absent) and the stored id is the supplied `temporary_id`
(`temporary_id || generateId("sub")`), so the conjunction is false. -/
theorem added_subscription_identity_quantity_claim_false :
    ¬ ((buildSubscription c9Entry 7).1.quantity_schedule = [⟨0, dtJan1⟩]
        ∧ (buildSubscription c9Entry 7).1.id = generateId "sub" 7) := by
  decide

/-- C9 as amended: for every `add_subscriptions` entry the stored
subscription gets a quantity schedule with a single entry keyed by the
entry's start — quantity 1 when `initial_quantity` is absent *or zero*
(JavaScript `||`), the supplied value otherwise — and an identity that is
the supplied `temporary_id` when truthy, and freshly generated (advancing
the generator) only when `temporary_id` is absent or empty. -/
theorem added_subscription_quantity_and_identity (e : AddSubscriptionReq) (ctr : Nat) :
    ((e.initial_quantity = none ∨ e.initial_quantity = some 0 →
        (buildSubscription e ctr).1.quantity_schedule = [⟨1, e.starting_at⟩])
      ∧ (∀ q, e.initial_quantity = some q → q ≠ 0 →
        (buildSubscription e ctr).1.quantity_schedule = [⟨q, e.starting_at⟩]))
    ∧ ((e.temporary_id = none ∨ e.temporary_id = some "" →
        (buildSubscription e ctr).1.id = generateId "sub" ctr
          ∧ (buildSubscription e ctr).2 = ctr + 1)
      ∧ (∀ tid, e.temporary_id = some tid → tid ≠ "" →
        (buildSubscription e ctr).1.id = tid ∧ (buildSubscription e ctr).2 = ctr)) := by
  constructor
  · constructor
    · rintro (hq | hq) <;> simp [buildSubscription, hq]
    · intro q hq hq0
      simp [buildSubscription, hq, hq0]
  · constructor
    · rintro (ht | ht) <;> simp [buildSubscription, ht]
    · intro tid ht ht0
      simp [buildSubscription, ht, ht0]

/-- Witness for C9's amended theorem at concrete inputs: entry `c9Entry`
(quantity 0, temporary id `"tmp"`) stores quantity 1 and id `"tmp"`
without advancing the generator. -/
theorem added_subscription_quantity_and_identity_witness :
    (buildSubscription c9Entry 7).1.quantity_schedule = [⟨1, dtJan1⟩]
      ∧ (buildSubscription c9Entry 7).1.id = "tmp"
      ∧ (buildSubscription c9Entry 7).2 = 7 :=
  ⟨(added_subscription_quantity_and_identity c9Entry 7).1.1 (Or.inr rfl),
   ((added_subscription_quantity_and_identity c9Entry 7).2.2 "tmp" rfl (by decide)).1,
   ((added_subscription_quantity_and_identity c9Entry 7).2.2 "tmp" rfl (by decide)).2⟩

/-! ## Claim C10 -/

/-- The C10 counterexample contract: no subscriptions, so the edit's
`update_subscriptions` entry for id `"X"` matches nothing. -/
def c10Contract : Contract := { id := "con10", customer_id := "cust", starting_at := dtJan1 }

/-- The C10 counterexample store. -/
def c10Store : Store := { contractsV2 := [("con10", c10Contract)] }

/-- The added subscription of the C10 scenario: `temporary_id = "X"`,
already started at the request instant. -/
def c10AddSub : AddSubscriptionReq :=
  { temporary_id := some "X", starting_at := dtJan1, product_id := "pp",
    billing_frequency := "MONTHLY" }

/-- The recurring credit of the C10 scenario, bound to `"X"`. -/
def c10Recurring : AddRecurringReq :=
  { product_id := "p", starting_at := dtFeb1, subscription_id := some "X" }

/-- The C10 edit carrying an `update_subscriptions` entry whose id `"X"`
matches no subscription at the time that step runs. -/
def c10ReqA : EditRequest :=
  { contract_id := some "con10", customer_id := some "cust",
    update_subscriptions := [⟨"X", none⟩],
    add_subscriptions := [c10AddSub],
    add_recurring_credits := [c10Recurring] }

/-- The same edit with the unmatched entry removed. -/
def c10ReqB : EditRequest := { c10ReqA with update_subscriptions := [] }

/-- Counterexample to C10 as stated: the `update_subscriptions` entry of
`c10ReqA` matches no subscription when its step runs (the contract has
none), yet the edit with the entry produces two credits while the same
edit without it produces none: the unmatched id still enters
`endingSubscriptionIds`, which satisfies the bridging trigger
`endingSubscriptionIds.has(targetSubId)` — the unmatched entry does *not*
change nothing. -/
theorem unmatched_update_subscription_alters_bridging :
    c10Contract.subscriptions = []
      ∧ (storedCredits (handleContractEdit dtJan15 c10ReqA c10Store 0).store "con10").length = 2
      ∧ (storedCredits (handleContractEdit dtJan15 c10ReqB c10Store 0).store "con10").length = 0 := by
  decide

/-- C10 as amended: entries of `update_subscriptions`,
`update_recurring_credits`, or `archive_credits` whose ids match nothing
make no direct mutation (each step is the identity on its list), and the
edit still succeeds with a freshly generated edit id whenever the
preconditions pass; however, an unmatched `update_subscriptions` id still
enters `endingSubscriptionIds` and can therefore enable bridging (see the
counterexample), so the request with the unmatched entries removed is not
in general equivalent. -/
theorem unmatched_entries_skip_and_succeed (now : DT)
    (u : UpdateSubscriptionReq) (ur : UpdateRecurringReq) (a : ArchiveCreditReq)
    (subs : List Subscription) (rcs : List RecurringCredit) (cs : List Credit)
    (req : EditRequest) (st : Store) (ctr : Nat) (c0 : Contract)
    (h1 : subs.all (fun s => !(s.id == u.subscription_id)) = true)
    (h2 : rcs.all (fun r => !(r.id == ur.recurring_credit_id)) = true)
    (h3 : cs.all (fun cr => !(cr.id == a.id)) = true)
    (h4 : optTruthy req.contract_id = true)
    (h5 : optTruthy req.customer_id = true)
    (h6 : Store.getContractV2 st (req.contract_id.getD "") = some c0)
    (h7 : (some c0.customer_id == req.customer_id) = true)
    (h8 : (optTruthy req.uniqueness_key &&
        Store.hasUniquenessKey st (req.uniqueness_key.getD "")) = false) :
    applyOneUpdateSubscription now u subs = subs
      ∧ applyOneUpdateRecurring ur rcs = rcs
      ∧ applyOneArchive now a cs = cs
      ∧ ∃ n, (handleContractEdit now req st ctr).result = .ok (generateId "edit" n) := by
  refine ⟨?_, ?_, ?_, ?_⟩
  · exact updateFirst_all_neg _ _ _ h1
  · unfold applyOneUpdateRecurring
    cases ur.ending_before with
    | none => rfl
    | some e => exact updateFirst_all_neg _ _ _ h2
  · exact updateFirst_all_neg _ _ _ h3
  · unfold handleContractEdit
    rw [h4, h5]
    simp only [Bool.not_true, Bool.false_eq_true, if_false]
    rw [h6]
    simp only [h7, h8, Bool.not_true, Bool.false_eq_true, if_false]
    exact ⟨_, rfl⟩

/-- Witness for C10's amended theorem at a concrete input: unmatched
entries against the C10 contract, with the edit succeeding. -/
theorem unmatched_entries_skip_and_succeed_witness :
    applyOneUpdateSubscription dtJan15 ⟨"Z", none⟩ c10Contract.subscriptions
        = c10Contract.subscriptions
      ∧ applyOneUpdateRecurring ⟨"Z", some dtMar1⟩ c10Contract.recurring_credits
        = c10Contract.recurring_credits
      ∧ applyOneArchive dtJan15 ⟨"Z"⟩ c10Contract.credits = c10Contract.credits
      ∧ ∃ n, (handleContractEdit dtJan15 c10ReqB c10Store 0).result
          = .ok (generateId "edit" n) :=
  unmatched_entries_skip_and_succeed dtJan15 ⟨"Z", none⟩ ⟨"Z", some dtMar1⟩ ⟨"Z"⟩
    c10Contract.subscriptions c10Contract.recurring_credits c10Contract.credits
    c10ReqB c10Store 0 c10Contract
    (by decide) (by decide) (by decide) (by decide) (by decide)
    (by decide) (by decide) (by decide)
